import Mathlib

/-!
Verification development for the FRAME fantasy console (a small 8-bit VM
plus a single-pass assembler, implemented in `js/runner.js` and the
assembler source `assembler.js`).

The first half of this file is a shallow embedding of the virtual machine
(`js/runner.js`): machine state, the memory/register accessors, the stack
helpers, the per-opcode instruction handlers, the fetch-decode-execute
`cycle`, the interrupt entry and the scheduler loop body of `runCallback`.
The second half embeds the assembler: lexer, mode resolution, the
opcode tables, directive handling and forward-label back-patching.

JavaScript numbers are embedded as `Nat`, or as `Int` at the few places
where the source can produce a negative intermediate value; the coercion
`x >>> 0` is written `(Int.emod x (2 ^ 32)).toNat` and bit masks such as
`& 0xff` are kept as `&&& 0xff`.  DOM access, canvas calls and
`console.log` debugging in the source have no effect on machine state and
are omitted.
-/

namespace FrameVM

/-- Constants from the top of `runner.js`. -/
def MEMORY_SIZE : Nat := 0xffff + 1

def CYCLES_PER_FRAME : Nat := 240

def CYCLES_PER_INTERRUPT : Nat := CYCLES_PER_FRAME * 4

def KERNEL_START_ADDR : Nat := 0xe000

def INPUT_DATA_ADDR : Nat := 0xe700

def TXT_DATA_ADDR : Nat := 0xe7c0

def FONT_START_ADDR : Nat := 0xe800

def SCREEN_DATA_ADDR : Nat := 0xec00

def INT_START_ADDR : Nat := 0xfffc

def ROM_START_ADDR : Nat := 0xfffe

def REG_COUNT : Nat := 16

/-- Index of the stack pointer in the register file (`REG_COUNT + 1`). -/
def SP : Nat := REG_COUNT + 1

/-- Flag state.  The source keeps the four flags in a `Map` holding the
numbers that were last stored; truthiness tests become `≠ 0`. -/
structure Flags where
  carry : Nat
  interrupt : Nat
  zero : Nat
  negative : Nat
  deriving Repr, DecidableEq

/-- Machine state of the `FrameVM` class: register file (a JS object keyed
by number), program counter, flags, the live input byte, the cycle clock,
the interrupt bookkeeping of the scheduler, the 64 KiB memory and the
running/paused scheduler state. -/
@[ext]
structure VM where
  registers : Nat → Nat
  pc : Nat
  flags : Flags
  input : Nat
  clock : Nat
  cyclesSinceInterrupt : Nat
  needsInterrupt : Bool
  memory : Nat → Nat
  running : Bool
  paused : Bool

/-- Value conversion done by `setMemory`/`setRegister`: `(to >>> 0) & 0xff`. -/
def jsByte (toV : Int) : Nat :=
  ((Int.emod toV (2 ^ 32)).toNat) &&& 0xff

/-- Source `#updateZeroAndNegative`: Zero = (v == 0), Negative = (v >> 7) & 1. -/
def updateZeroAndNegative (f : Flags) (v : Nat) : Flags :=
  { f with zero := if v = 0 then 1 else 0, negative := (v >>> 7) &&& 1 }

/-- Source `setMemory`.  A `Uint8Array` silently drops writes outside
`0 .. MEMORY_SIZE - 1`; the flag update still happens. -/
def setMemory (s : VM) (addr : Nat) (toV : Int) : VM :=
  let V := jsByte toV
  { s with
    memory := if addr < MEMORY_SIZE
      then fun x => if x = addr then V else s.memory x
      else s.memory,
    flags := updateZeroAndNegative s.flags V }

/-- Source `setMemory16`: two sequential byte stores, low then high. -/
def setMemory16 (s : VM) (addr : Nat) (lo hi : Int) : VM :=
  setMemory (setMemory s addr lo) (addr + 1) hi

/-- Source `getMemory`: address `0xe700` reads the live input register.
Reading a `Uint8Array` out of range yields `undefined` in the source; every
caller coerces that to 0, which is the value returned here. -/
def getMemory (s : VM) (addr : Nat) : Nat :=
  if addr = INPUT_DATA_ADDR then s.input
  else if addr < MEMORY_SIZE then s.memory addr else 0

/-- Source `getMemory16`: `lo | (hi << 8)`. -/
def getMemory16 (s : VM) (addr : Nat) : Nat :=
  let lo := getMemory s addr
  let hi := getMemory s (addr + 1)
  lo ||| (hi <<< 8)

/-- Source `setRegister`: writes to register 0 are forced to the value 0,
the stored byte is `(to >>> 0) & 0xff`, and Zero/Negative are updated. -/
def setRegister (s : VM) (r : Nat) (toV : Int) : VM :=
  let toV := if r = 0 then 0 else toV
  let V := jsByte toV
  { s with
    registers := fun x => if x = r then V else s.registers x,
    flags := updateZeroAndNegative s.flags V }

/-- Source `getRegister`. -/
def getRegister (s : VM) (r : Nat) : Nat :=
  s.registers r

/-- Source `setSP`. -/
def setSP (s : VM) (toV : Int) : VM :=
  setRegister s SP toV

/-- Source `getSP`. -/
def getSP (s : VM) : Nat :=
  getRegister s SP

/-- Source `setPC`: `(to >>> 0) & 0xffff`. -/
def setPC (s : VM) (toV : Int) : VM :=
  { s with pc := ((Int.emod toV (2 ^ 32)).toNat) &&& 0xffff }

/-- Source `pushToStack`: write at `0x0100 + SP`, then increment SP. -/
def pushToStack (s : VM) (value : Int) : VM :=
  let sp := getSP s
  let s := setMemory s (0x0100 + sp) value
  setSP s (sp + 1)

/-- Source `pushToStack16`: push high byte, then low byte. -/
def pushToStack16 (s : VM) (value : Nat) : VM :=
  let u := value
  let lo := u &&& 0xff
  let hi := (u >>> 8) &&& 0xff
  pushToStack (pushToStack s hi) lo

/-- Source `popFromStack`: `sp = getSP() - 1` may be `-1`; the SP register
wraps to 255 through `setRegister`, but the address `0x0100 + sp` is
computed from the unwrapped value and then lands at `0x00ff`. -/
def popFromStack (s : VM) : Nat × VM :=
  let sp : Int := (getSP s : Int) - 1
  let s := setSP s sp
  let addr : Int := 0x0100 + sp
  (getMemory s addr.toNat, s)

/-- Source `popFromStack16`: pop low byte, then high byte. -/
def popFromStack16 (s : VM) : Nat × VM :=
  let r1 := popFromStack s
  let r2 := popFromStack r1.2
  (r1.1 ||| (r2.1 <<< 8), r2.2)

/-- Source `fetchNext`: read the byte at PC through `getMemory`, increment
PC masking to 16 bits, and advance the clock.  The `console.log` probe at
PC `0x30d` in the source has no state effect and is omitted. -/
def fetchNext (s : VM) : Nat × VM :=
  let next := getMemory s s.pc
  (next, { s with pc := (s.pc + 1) &&& 0xffff, clock := s.clock + 1 })

/-- Source `pause`: toggles between running and paused (the `stop` call in
the first branch clears `running`; interval bookkeeping is host-side). -/
def pause (s : VM) : VM :=
  if s.running then { s with paused := true, running := false }
  else { s with paused := false, running := true }

/-- Source `#doSyscall`: the syscall table is empty, the body does nothing. -/
def doSyscall (s : VM) (_syscall : Nat) : VM := s

/-- Source `#addWithCarry`: sets Carry iff the sum reaches 0x100 and
returns `(result >>> 0) & 0xff`. -/
def addWithCarry (s : VM) (a b : Nat) : Nat × VM :=
  let result := a + b
  let s :=
    if 0x100 ≤ result then { s with flags := { s.flags with carry := 1 } }
    else { s with flags := { s.flags with carry := 0 } }
  (result &&& 0xff, s)

/-- Source `#getArgsA`: one byte, low nibble. -/
def getArgsA (s : VM) : Nat × VM :=
  let r := fetchNext s
  (r.1 &&& 0xf, r.2)

/-- Source `#getArgsK`. -/
def getArgsK (s : VM) : Nat × VM :=
  fetchNext s

/-- Source `#getArgsP`: low byte then high byte. -/
def getArgsP (s : VM) : Nat × VM :=
  let r1 := fetchNext s
  let r2 := fetchNext r1.2
  (r1.1 ||| (r2.1 <<< 8), r2.2)

/-- Source `#getArgsAB`: one byte, A in the low nibble, B in the high. -/
def getArgsAB (s : VM) : (Nat × Nat) × VM :=
  let r := fetchNext s
  ((r.1 &&& 0xf, (r.1 >>> 4) &&& 0xf), r.2)

/-- Source `#getArgsAK`. -/
def getArgsAK (s : VM) : (Nat × Nat) × VM :=
  let ra := getArgsA s
  let rk := fetchNext ra.2
  ((ra.1, rk.1), rk.2)

/-- Source `#getArgsKA`. -/
def getArgsKA (s : VM) : (Nat × Nat) × VM :=
  let rk := fetchNext s
  let ra := getArgsA rk.2
  ((rk.1, ra.1), ra.2)

/-- Source `#getArgsKK`. -/
def getArgsKK (s : VM) : (Nat × Nat) × VM :=
  let r1 := fetchNext s
  let r2 := fetchNext r1.2
  ((r1.1, r2.1), r2.2)

/-- Source `#getArgsAP`. -/
def getArgsAP (s : VM) : (Nat × Nat) × VM :=
  let ra := getArgsA s
  let rp := getArgsP ra.2
  ((ra.1, rp.1), rp.2)

/-- Source `#getArgsPA`. -/
def getArgsPA (s : VM) : (Nat × Nat) × VM :=
  let rp := getArgsP s
  let ra := getArgsA rp.2
  ((rp.1, ra.1), ra.2)

/-- Source `#getArgsPK`. -/
def getArgsPK (s : VM) : (Nat × Nat) × VM :=
  let rp := getArgsP s
  let rk := getArgsK rp.2
  ((rp.1, rk.1), rk.2)

/-- Source `#getArgsABC`. -/
def getArgsABC (s : VM) : (Nat × Nat × Nat) × VM :=
  let rab := getArgsAB s
  let rc := getArgsA rab.2
  ((rab.1.1, rab.1.2, rc.1), rc.2)

/-- Source `#getArgsABK`. -/
def getArgsABK (s : VM) : (Nat × Nat × Nat) × VM :=
  let rab := getArgsAB s
  let rk := getArgsK rab.2
  ((rab.1.1, rab.1.2, rk.1), rk.2)

/-- Source `#getArgsPAB`. -/
def getArgsPAB (s : VM) : (Nat × Nat × Nat) × VM :=
  let rp := getArgsP s
  let rab := getArgsAB rp.2
  ((rp.1, rab.1.1, rab.1.2), rab.2)

/-- Source `#getArgsPAK`. -/
def getArgsPAK (s : VM) : (Nat × Nat × Nat) × VM :=
  let rp := getArgsP s
  let rak := getArgsAK rp.2
  ((rp.1, rak.1.1, rak.1.2), rak.2)

/-- Source `#getArgsAPB`: reorders `#getArgsPAB`. -/
def getArgsAPB (s : VM) : (Nat × Nat × Nat) × VM :=
  let r := getArgsPAB s
  ((r.1.2.1, r.1.1, r.1.2.2), r.2)

/-- Source `#getArgsAPK`: reorders `#getArgsPAK`. -/
def getArgsAPK (s : VM) : (Nat × Nat × Nat) × VM :=
  let r := getArgsPAK s
  ((r.1.2.1, r.1.1, r.1.2.2), r.2)

/-- Source `#getArgsAIB`: reads ABK, returns `[a, i, b]` with the indirect
byte taken from the K slot. -/
def getArgsAIB (s : VM) : (Nat × Nat × Nat) × VM :=
  let r := getArgsABK s
  ((r.1.1, r.1.2.2, r.1.2.1), r.2)

/-- Source `#getArgsAIK`: A byte, indirect byte, immediate byte. -/
def getArgsAIK (s : VM) : (Nat × Nat × Nat) × VM :=
  let rai := getArgsAK s
  let rk := fetchNext rai.2
  ((rai.1.1, rai.1.2, rk.1), rk.2)


/-! Instruction handlers, one per entry of `#initInstructions` in
`runner.js`.  Each mirrors the corresponding closure; argument decoding
happens inside the handler through the `getArgs` helpers, exactly as in
the source. -/

/-- Opcode `HLT_A`. -/
def execHLT_A (s : VM) : VM :=
  let r := getArgsA s
  let A := getRegister r.2 r.1
  doSyscall r.2 A

/-- Opcode `HLT_K`. -/
def execHLT_K (s : VM) : VM :=
  let r := getArgsK s
  doSyscall r.2 r.1

/-- Opcode `HLT_O`. -/
def execHLT_O (s : VM) : VM :=
  pause s

/-- Opcode `MOV_APB`. -/
def execMOV_APB (s : VM) : VM :=
  let r := getArgsAPB s
  let s := r.2
  let a := r.1.1; let p := r.1.2.1; let b := r.1.2.2
  let B := getRegister s b
  let P := getMemory s (p + B)
  setRegister s a P

/-- Opcode `MOV_APK`. -/
def execMOV_APK (s : VM) : VM :=
  let r := getArgsAPK s
  let s := r.2
  let a := r.1.1; let p := r.1.2.1; let k := r.1.2.2
  let P := getMemory s (p + k)
  setRegister s a P

/-- Opcode `MOV_AIB`: reads the 16-bit base pointer from zero page and
loads the byte at base + register offset. -/
def execMOV_AIB (s : VM) : VM :=
  let r := getArgsAIB s
  let s := r.2
  let a := r.1.1; let i := r.1.2.1; let b := r.1.2.2
  let lo := getMemory s i
  let hi := getMemory s ((i + 1) &&& 0xff)
  let I := lo ||| (hi <<< 8)
  let B := getRegister s b
  let P := getMemory s (I + B)
  setRegister s a P

/-- Opcode `MOV_AIK`.  The source reads the 16-bit base pointer but then
stores `I + k` itself into the register (`this.setRegister(a, I + k)`)
without the `getMemory` load that `MOV_AIB` performs. -/
def execMOV_AIK (s : VM) : VM :=
  let r := getArgsAIK s
  let s := r.2
  let a := r.1.1; let i := r.1.2.1; let k := r.1.2.2
  let lo := getMemory s i
  let hi := getMemory s ((i + 1) &&& 0xff)
  let I := lo ||| (hi <<< 8)
  setRegister s a (I + k)

/-- Opcode `MOV_PAB`. -/
def execMOV_PAB (s : VM) : VM :=
  let r := getArgsPAB s
  let s := r.2
  let p := r.1.1; let a := r.1.2.1; let b := r.1.2.2
  let A := getRegister s a
  let B := getRegister s b
  setMemory s (p + A) B

/-- Opcode `MOV_PAK`. -/
def execMOV_PAK (s : VM) : VM :=
  let r := getArgsPAK s
  let s := r.2
  let p := r.1.1; let a := r.1.2.1; let k := r.1.2.2
  let A := getRegister s a
  setMemory s (p + A) k

/-- Opcode `MOV_AB`. -/
def execMOV_AB (s : VM) : VM :=
  let r := getArgsAB s
  let s := r.2
  let B := getRegister s r.1.2
  setRegister s r.1.1 B

/-- Opcode `MOV_AK`. -/
def execMOV_AK (s : VM) : VM :=
  let r := getArgsAK s
  setRegister r.2 r.1.1 r.1.2

/-- Opcode `MOV_KA`. -/
def execMOV_KA (s : VM) : VM :=
  let r := getArgsKA s
  let s := r.2
  let A := getRegister s r.1.2
  setMemory s r.1.1 A

/-- Opcode `MOV_KK`. -/
def execMOV_KK (s : VM) : VM :=
  let r := getArgsKK s
  setMemory r.2 r.1.1 r.1.2

/-- Opcode `MOV_AP`. -/
def execMOV_AP (s : VM) : VM :=
  let r := getArgsAP s
  let s := r.2
  let P := getMemory s r.1.2
  setRegister s r.1.1 P

/-- Opcode `MOV_PA`. -/
def execMOV_PA (s : VM) : VM :=
  let r := getArgsPA s
  let s := r.2
  let A := getRegister s r.1.2
  setMemory s r.1.1 A

/-- Opcode `MOV_PK`. -/
def execMOV_PK (s : VM) : VM :=
  let r := getArgsPK s
  setMemory r.2 r.1.1 r.1.2

/-- Opcode `JMP_PA`.  The source computes `p + a` from the raw nibble `a`,
not from the register contents. -/
def execJMP_PA (s : VM) : VM :=
  let r := getArgsPA s
  setPC r.2 (r.1.1 + r.1.2)

/-- Opcode `JMP_PK`. -/
def execJMP_PK (s : VM) : VM :=
  let r := getArgsPK s
  setPC r.2 (r.1.1 + r.1.2)

/-- Opcode `JMP_P`. -/
def execJMP_P (s : VM) : VM :=
  let r := getArgsP s
  setPC r.2 r.1

/-- Opcode `BRT_PA`: branch when the Zero flag is truthy. -/
def execBRT_PA (s : VM) : VM :=
  let r := getArgsPA s
  if r.2.flags.zero ≠ 0 then setPC r.2 (r.1.1 + r.1.2) else r.2

/-- Opcode `BRT_PK`. -/
def execBRT_PK (s : VM) : VM :=
  let r := getArgsPK s
  if r.2.flags.zero ≠ 0 then setPC r.2 (r.1.1 + r.1.2) else r.2

/-- Opcode `BRT_P`. -/
def execBRT_P (s : VM) : VM :=
  let r := getArgsP s
  if r.2.flags.zero ≠ 0 then setPC r.2 r.1 else r.2

/-- Opcode `BRF_PA`: branch when the Zero flag is `=== 0`. -/
def execBRF_PA (s : VM) : VM :=
  let r := getArgsPA s
  if r.2.flags.zero = 0 then setPC r.2 (r.1.1 + r.1.2) else r.2

/-- Opcode `BRF_PK`. -/
def execBRF_PK (s : VM) : VM :=
  let r := getArgsPK s
  if r.2.flags.zero = 0 then setPC r.2 (r.1.1 + r.1.2) else r.2

/-- Opcode `BRF_P`. -/
def execBRF_P (s : VM) : VM :=
  let r := getArgsP s
  if r.2.flags.zero = 0 then setPC r.2 r.1 else r.2

/-- Opcode `EQU_AB`. -/
def execEQU_AB (s : VM) : VM :=
  let r := getArgsAB s
  let s := r.2
  let eq := if getRegister s r.1.1 = getRegister s r.1.2 then 1 else 0
  { s with flags := { s.flags with zero := eq } }

/-- Opcode `EQU_AK`. -/
def execEQU_AK (s : VM) : VM :=
  let r := getArgsAK s
  let s := r.2
  let eq := if getRegister s r.1.1 = r.1.2 then 1 else 0
  { s with flags := { s.flags with zero := eq } }

/-- Opcode `LSS_AB`. -/
def execLSS_AB (s : VM) : VM :=
  let r := getArgsAB s
  let s := r.2
  let lss := if getRegister s r.1.1 < getRegister s r.1.2 then 1 else 0
  { s with flags := { s.flags with zero := lss } }

/-- Opcode `LSS_AK`. -/
def execLSS_AK (s : VM) : VM :=
  let r := getArgsAK s
  let s := r.2
  let lss := if getRegister s r.1.1 < r.1.2 then 1 else 0
  { s with flags := { s.flags with zero := lss } }

/-- Opcode `AND_ABC`. -/
def execAND_ABC (s : VM) : VM :=
  let r := getArgsABC s
  let s := r.2
  setRegister s r.1.1 (getRegister s r.1.2.1 &&& getRegister s r.1.2.2)

/-- Opcode `AND_ABK`. -/
def execAND_ABK (s : VM) : VM :=
  let r := getArgsABK s
  let s := r.2
  setRegister s r.1.1 (getRegister s r.1.2.1 &&& r.1.2.2)

/-- Opcode `AND_AB`. -/
def execAND_AB (s : VM) : VM :=
  let r := getArgsAB s
  let s := r.2
  setRegister s r.1.1 (getRegister s r.1.1 &&& getRegister s r.1.2)

/-- Opcode `AND_AK`. -/
def execAND_AK (s : VM) : VM :=
  let r := getArgsAK s
  let s := r.2
  setRegister s r.1.1 (getRegister s r.1.1 &&& r.1.2)

/-- Opcode `OR_ABC`. -/
def execOR_ABC (s : VM) : VM :=
  let r := getArgsABC s
  let s := r.2
  setRegister s r.1.1 (getRegister s r.1.2.1 ||| getRegister s r.1.2.2)

/-- Opcode `OR_ABK`. -/
def execOR_ABK (s : VM) : VM :=
  let r := getArgsABK s
  let s := r.2
  setRegister s r.1.1 (getRegister s r.1.2.1 ||| r.1.2.2)

/-- Opcode `OR_AB`. -/
def execOR_AB (s : VM) : VM :=
  let r := getArgsAB s
  let s := r.2
  setRegister s r.1.1 (getRegister s r.1.1 ||| getRegister s r.1.2)

/-- Opcode `OR_AK`. -/
def execOR_AK (s : VM) : VM :=
  let r := getArgsAK s
  let s := r.2
  setRegister s r.1.1 (getRegister s r.1.1 ||| r.1.2)

/-- Opcode `XOR_ABC`. -/
def execXOR_ABC (s : VM) : VM :=
  let r := getArgsABC s
  let s := r.2
  setRegister s r.1.1 (getRegister s r.1.2.1 ^^^ getRegister s r.1.2.2)

/-- Opcode `XOR_ABK`. -/
def execXOR_ABK (s : VM) : VM :=
  let r := getArgsABK s
  let s := r.2
  setRegister s r.1.1 (getRegister s r.1.2.1 ^^^ r.1.2.2)

/-- Opcode `XOR_AB`. -/
def execXOR_AB (s : VM) : VM :=
  let r := getArgsAB s
  let s := r.2
  setRegister s r.1.1 (getRegister s r.1.1 ^^^ getRegister s r.1.2)

/-- Opcode `XOR_AK`. -/
def execXOR_AK (s : VM) : VM :=
  let r := getArgsAK s
  let s := r.2
  setRegister s r.1.1 (getRegister s r.1.1 ^^^ r.1.2)

/-- Opcode `NOT_AB`.  The source calls `this.getRegister(a, B === 0 ? 1 : 0)`;
`getRegister` ignores the second argument and the returned value is
discarded, so only the argument fetch has an effect. -/
def execNOT_AB (s : VM) : VM :=
  let r := getArgsAB s
  let s := r.2
  let _B := getRegister s r.1.2
  let _discarded := getRegister s r.1.1
  s

/-- Opcode `NOT_AK`.  Same `getRegister`-for-`setRegister` slip as `NOT_AB`. -/
def execNOT_AK (s : VM) : VM :=
  let r := getArgsAK s
  let s := r.2
  let _discarded := getRegister s r.1.1
  s

/-- Opcode `NOT_A`: inverts the Zero flag and copies it into A. -/
def execNOT_A (s : VM) : VM :=
  let r := getArgsA s
  let s := r.2
  let C : Nat := if s.flags.zero = 0 then 1 else 0
  let s := { s with flags := { s.flags with zero := C } }
  setRegister s r.1 C

/-- Opcode `NOT_O`: inverts the Zero flag in place. -/
def execNOT_O (s : VM) : VM :=
  let C := if s.flags.zero = 0 then 1 else 0
  { s with flags := { s.flags with zero := C } }

/-- Opcode `ROL_A`: 9-bit rotate left through Carry on a register. -/
def execROL_A (s : VM) : VM :=
  let r := getArgsA s
  let s := r.2
  let carry := s.flags.carry
  let A := getRegister s r.1
  let s := { s with flags := { s.flags with carry := (A >>> 7) &&& 1 } }
  let A := (A <<< 1) &&& 0xff
  let A := if carry ≠ 0 then A ||| 1 else A
  setRegister s r.1 A

/-- Opcode `ROL_K`: rotate left on a zero-page byte addressed by K. -/
def execROL_K (s : VM) : VM :=
  let r := getArgsK s
  let s := r.2
  let carry := s.flags.carry
  let K := getMemory s r.1
  let s := { s with flags := { s.flags with carry := (K >>> 7) &&& 1 } }
  let K := (K <<< 1) &&& 0xff
  let K := if carry ≠ 0 then K ||| 1 else K
  setMemory s r.1 K

/-- Opcode `ROL_P`. -/
def execROL_P (s : VM) : VM :=
  let r := getArgsP s
  let s := r.2
  let carry := s.flags.carry
  let P := getMemory s r.1
  let s := { s with flags := { s.flags with carry := (P >>> 7) &&& 1 } }
  let P := (P <<< 1) &&& 0xff
  let P := if carry ≠ 0 then P ||| 1 else P
  setMemory s r.1 P

/-- Opcode `ROR_A`: 9-bit rotate right through Carry on a register. -/
def execROR_A (s : VM) : VM :=
  let r := getArgsA s
  let s := r.2
  let carry := s.flags.carry
  let A := getRegister s r.1
  let s := { s with flags := { s.flags with carry := A &&& 1 } }
  let A := A >>> 1
  let A := if carry ≠ 0 then A ||| (1 <<< 7) else A
  setRegister s r.1 A

/-- Opcode `ROR_K`. -/
def execROR_K (s : VM) : VM :=
  let r := getArgsK s
  let s := r.2
  let carry := s.flags.carry
  let K := getMemory s r.1
  let s := { s with flags := { s.flags with carry := K &&& 1 } }
  let K := K >>> 1
  let K := if carry ≠ 0 then K ||| (1 <<< 7) else K
  setMemory s r.1 K

/-- Opcode `ROR_P`. -/
def execROR_P (s : VM) : VM :=
  let r := getArgsP s
  let s := r.2
  let carry := s.flags.carry
  let P := getMemory s r.1
  let s := { s with flags := { s.flags with carry := P &&& 1 } }
  let P := P >>> 1
  let P := if carry ≠ 0 then P ||| (1 <<< 7) else P
  setMemory s r.1 P

/-- Opcode `LSH_ABC`: Carry is set from `B > 127` before shifting. -/
def execLSH_ABC (s : VM) : VM :=
  let r := getArgsABC s
  let s := r.2
  let B := getRegister s r.1.2.1
  let C := getRegister s r.1.2.2
  let s := { s with flags := { s.flags with carry := if 127 < B then 1 else 0 } }
  setRegister s r.1.1 (B <<< C)

/-- Opcode `LSH_ABK`. -/
def execLSH_ABK (s : VM) : VM :=
  let r := getArgsABK s
  let s := r.2
  let B := getRegister s r.1.2.1
  let s := { s with flags := { s.flags with carry := if 127 < B then 1 else 0 } }
  setRegister s r.1.1 (B <<< r.1.2.2)

/-- Opcode `LSH_AB`. -/
def execLSH_AB (s : VM) : VM :=
  let r := getArgsAB s
  let s := r.2
  let A := getRegister s r.1.1
  let B := getRegister s r.1.2
  let s := { s with flags := { s.flags with carry := if 127 < A then 1 else 0 } }
  setRegister s r.1.1 (A <<< B)

/-- Opcode `LSH_AK`. -/
def execLSH_AK (s : VM) : VM :=
  let r := getArgsAK s
  let s := r.2
  let A := getRegister s r.1.1
  let s := { s with flags := { s.flags with carry := if 127 < A then 1 else 0 } }
  setRegister s r.1.1 (A <<< r.1.2)

/-- Opcode `LSH_A`. -/
def execLSH_A (s : VM) : VM :=
  let r := getArgsA s
  let s := r.2
  let A := getRegister s r.1
  let s := { s with flags := { s.flags with carry := if 127 < A then 1 else 0 } }
  setRegister s r.1 (A <<< 1)

/-- Opcode `RSH_ABC`: Carry is the bottom bit of `B`. -/
def execRSH_ABC (s : VM) : VM :=
  let r := getArgsABC s
  let s := r.2
  let B := getRegister s r.1.2.1
  let C := getRegister s r.1.2.2
  let s := { s with flags := { s.flags with carry := B &&& 1 } }
  setRegister s r.1.1 (B >>> C)

/-- Opcode `RSH_ABK`. -/
def execRSH_ABK (s : VM) : VM :=
  let r := getArgsABK s
  let s := r.2
  let B := getRegister s r.1.2.1
  let s := { s with flags := { s.flags with carry := B &&& 1 } }
  setRegister s r.1.1 (B >>> r.1.2.2)

/-- Opcode `RSH_AB`. -/
def execRSH_AB (s : VM) : VM :=
  let r := getArgsAB s
  let s := r.2
  let A := getRegister s r.1.1
  let B := getRegister s r.1.2
  let s := { s with flags := { s.flags with carry := A &&& 1 } }
  setRegister s r.1.1 (A >>> B)

/-- Opcode `RSH_AK`. -/
def execRSH_AK (s : VM) : VM :=
  let r := getArgsAK s
  let s := r.2
  let A := getRegister s r.1.1
  let s := { s with flags := { s.flags with carry := A &&& 1 } }
  setRegister s r.1.1 (A >>> r.1.2)

/-- Opcode `RSH_A`. -/
def execRSH_A (s : VM) : VM :=
  let r := getArgsA s
  let s := r.2
  let A := getRegister s r.1
  let s := { s with flags := { s.flags with carry := A &&& 1 } }
  setRegister s r.1 (A >>> 1)

/-- Opcode `ADD_ABC`: `a := B + C` through `#addWithCarry`. -/
def execADD_ABC (s : VM) : VM :=
  let r := getArgsABC s
  let s := r.2
  let B := getRegister s r.1.2.1
  let C := getRegister s r.1.2.2
  let rc := addWithCarry s B C
  setRegister rc.2 r.1.1 rc.1

/-- Opcode `ADD_ABK`. -/
def execADD_ABK (s : VM) : VM :=
  let r := getArgsABK s
  let s := r.2
  let B := getRegister s r.1.2.1
  let rc := addWithCarry s B r.1.2.2
  setRegister rc.2 r.1.1 rc.1

/-- Opcode `ADD_AB`. -/
def execADD_AB (s : VM) : VM :=
  let r := getArgsAB s
  let s := r.2
  let A := getRegister s r.1.1
  let B := getRegister s r.1.2
  let rc := addWithCarry s A B
  setRegister rc.2 r.1.1 rc.1

/-- Opcode `ADD_AK`. -/
def execADD_AK (s : VM) : VM :=
  let r := getArgsAK s
  let s := r.2
  let A := getRegister s r.1.1
  let rc := addWithCarry s A r.1.2
  setRegister rc.2 r.1.1 rc.1

/-- Opcode `INC_A`. -/
def execINC_A (s : VM) : VM :=
  let r := getArgsA s
  let s := r.2
  setRegister s r.1 (getRegister s r.1 + 1)

/-- Opcode `INC_P`. -/
def execINC_P (s : VM) : VM :=
  let r := getArgsP s
  let s := r.2
  setMemory s r.1 (getMemory s r.1 + 1)

/-- Opcode `DEC_A`: `A - 1` can be `-1` in the source; `A >>> 0` wraps it
to `2^32 - 1` before the register store masks to a byte. -/
def execDEC_A (s : VM) : VM :=
  let r := getArgsA s
  let s := r.2
  let A : Int := (getRegister s r.1 : Int) - 1
  setRegister s r.1 ((Int.emod A (2 ^ 32)).toNat : Nat)

/-- Opcode `DEC_P`. -/
def execDEC_P (s : VM) : VM :=
  let r := getArgsP s
  let s := r.2
  let P : Int := (getMemory s r.1 : Int) - 1
  setMemory s r.1 ((Int.emod P (2 ^ 32)).toNat : Nat)

/-- Opcode `CALL_P`: push the 16-bit PC, then jump. -/
def execCALL_P (s : VM) : VM :=
  let r := getArgsP s
  let s := r.2
  let s := pushToStack16 s s.pc
  setPC s r.1

/-- Opcode `RET_O`. -/
def execRET_O (s : VM) : VM :=
  let r := popFromStack16 s
  setPC r.2 r.1

/-- Opcode `PUSH_A`. -/
def execPUSH_A (s : VM) : VM :=
  let r := getArgsA s
  let s := r.2
  pushToStack s (getRegister s r.1)

/-- Handler written under the key `Opcode.PUSH_O` in the source.  No such
opcode exists, so the closure is stored under the key `"undefined"` and is
unreachable from `cycle`; it is embedded here for completeness. -/
def execPUSH_undefinedKey (s : VM) : VM :=
  let r := getArgsK s
  pushToStack r.2 r.1

/-- Opcode `POP_A`: the pop happens before the argument fetch. -/
def execPOP_A (s : VM) : VM :=
  let rv := popFromStack s
  let r := getArgsA rv.2
  setRegister r.2 r.1 rv.1

/-- Opcode `POP_O`: discard one byte. -/
def execPOP_O (s : VM) : VM :=
  (popFromStack s).2

/-- Opcode `SEI_A`: Interrupt-enable from a truthiness test of register A. -/
def execSEI_A (s : VM) : VM :=
  let r := getArgsA s
  let s := r.2
  let A := if getRegister s r.1 = 0 then 0 else 1
  { s with flags := { s.flags with interrupt := A } }

/-- Opcode `SEI_K`. -/
def execSEI_K (s : VM) : VM :=
  let r := getArgsK s
  let s := r.2
  let K := if r.1 = 0 then 0 else 1
  { s with flags := { s.flags with interrupt := K } }

/-- Opcode `SEI_O`. -/
def execSEI_O (s : VM) : VM :=
  { s with flags := { s.flags with interrupt := 1 } }

/-- Opcode `CHY_O`: copy Carry into Zero. -/
def execCHY_O (s : VM) : VM :=
  { s with flags := { s.flags with zero := s.flags.carry } }

/-! Opcode values, from the `Opcode` enumeration in `assembler.js`
(the runner shares these constants with the assembler). -/

namespace Opcode

def HLT_A : Nat := 0x0
def HLT_K : Nat := 0x1
def HLT_O : Nat := 0x2
def MOV_APB : Nat := 0x3
def MOV_APK : Nat := 0x4
def MOV_AIB : Nat := 0x5
def MOV_AIK : Nat := 0x6
def MOV_PAB : Nat := 0x7
def MOV_PAK : Nat := 0x8
def MOV_AB : Nat := 0x9
def MOV_AK : Nat := 0xa
def MOV_AP : Nat := 0xb
def MOV_KA : Nat := 0xc
def MOV_KK : Nat := 0xd
def MOV_PA : Nat := 0xe
def MOV_PK : Nat := 0xf
def JMP_PA : Nat := 0x10
def JMP_PK : Nat := 0x11
def JMP_P : Nat := 0x12
def BRT_PA : Nat := 0x13
def BRT_PK : Nat := 0x14
def BRT_P : Nat := 0x15
def BRF_PA : Nat := 0x16
def BRF_PK : Nat := 0x17
def BRF_P : Nat := 0x18
def EQU_AB : Nat := 0x19
def EQU_AK : Nat := 0x1a
def EQU_PA : Nat := 0x1b
def EQU_PK : Nat := 0x1c
def LSS_AB : Nat := 0x1d
def LSS_AK : Nat := 0x1e
def AND_ABC : Nat := 0x1f
def AND_ABK : Nat := 0x20
def AND_AB : Nat := 0x21
def AND_AK : Nat := 0x22
def OR_ABC : Nat := 0x23
def OR_ABK : Nat := 0x24
def OR_AB : Nat := 0x25
def OR_AK : Nat := 0x26
def XOR_ABC : Nat := 0x27
def XOR_ABK : Nat := 0x28
def XOR_AB : Nat := 0x29
def XOR_AK : Nat := 0x2a
def NOT_AB : Nat := 0x2b
def NOT_AK : Nat := 0x2c
def NOT_A : Nat := 0x2d
def NOT_O : Nat := 0x2e
def LSH_ABC : Nat := 0x2f
def LSH_ABK : Nat := 0x30
def LSH_AB : Nat := 0x31
def LSH_AK : Nat := 0x32
def LSH_A : Nat := 0x33
def RSH_ABC : Nat := 0x34
def RSH_ABK : Nat := 0x35
def RSH_AB : Nat := 0x36
def RSH_AK : Nat := 0x37
def RSH_A : Nat := 0x38
def ROL_A : Nat := 0x39
def ROL_K : Nat := 0x3a
def ROL_P : Nat := 0x3b
def ROR_A : Nat := 0x3c
def ROR_K : Nat := 0x3d
def ROR_P : Nat := 0x3e
def ADD_ABC : Nat := 0x3f
def ADD_ABK : Nat := 0x40
def ADD_AB : Nat := 0x41
def ADD_AK : Nat := 0x42
def INC_A : Nat := 0x43
def INC_P : Nat := 0x44
def DEC_A : Nat := 0x45
def DEC_P : Nat := 0x46
def CALL_P : Nat := 0x47
def RET_O : Nat := 0x48
def PUSH_A : Nat := 0x49
def PUSH_K : Nat := 0x4a
def POP_A : Nat := 0x4b
def POP_O : Nat := 0x4c
def SEI_A : Nat := 0x4d
def SEI_K : Nat := 0x4e
def SEI_O : Nat := 0x4f
def CHY_O : Nat := 0x50

end Opcode

/-- Dispatch table `#instructions` of `runner.js`, keyed by opcode byte.
Opcodes `0x1b`/`0x1c` (`EQU_PA`/`EQU_PK`) have no entry in the source.
The entry written under `[Opcode.PUSH_O]` uses a name that does not exist
in the `Opcode` enumeration, so it is stored under the string key
`"undefined"`; consequently opcode `0x4a` (`PUSH_K`) has no entry either. -/
def instructions : Nat → Option (VM → VM)
  | 0x00 => some execHLT_A
  | 0x01 => some execHLT_K
  | 0x02 => some execHLT_O
  | 0x03 => some execMOV_APB
  | 0x04 => some execMOV_APK
  | 0x05 => some execMOV_AIB
  | 0x06 => some execMOV_AIK
  | 0x07 => some execMOV_PAB
  | 0x08 => some execMOV_PAK
  | 0x09 => some execMOV_AB
  | 0x0a => some execMOV_AK
  | 0x0b => some execMOV_AP
  | 0x0c => some execMOV_KA
  | 0x0d => some execMOV_KK
  | 0x0e => some execMOV_PA
  | 0x0f => some execMOV_PK
  | 0x10 => some execJMP_PA
  | 0x11 => some execJMP_PK
  | 0x12 => some execJMP_P
  | 0x13 => some execBRT_PA
  | 0x14 => some execBRT_PK
  | 0x15 => some execBRT_P
  | 0x16 => some execBRF_PA
  | 0x17 => some execBRF_PK
  | 0x18 => some execBRF_P
  | 0x19 => some execEQU_AB
  | 0x1a => some execEQU_AK
  | 0x1d => some execLSS_AB
  | 0x1e => some execLSS_AK
  | 0x1f => some execAND_ABC
  | 0x20 => some execAND_ABK
  | 0x21 => some execAND_AB
  | 0x22 => some execAND_AK
  | 0x23 => some execOR_ABC
  | 0x24 => some execOR_ABK
  | 0x25 => some execOR_AB
  | 0x26 => some execOR_AK
  | 0x27 => some execXOR_ABC
  | 0x28 => some execXOR_ABK
  | 0x29 => some execXOR_AB
  | 0x2a => some execXOR_AK
  | 0x2b => some execNOT_AB
  | 0x2c => some execNOT_AK
  | 0x2d => some execNOT_A
  | 0x2e => some execNOT_O
  | 0x2f => some execLSH_ABC
  | 0x30 => some execLSH_ABK
  | 0x31 => some execLSH_AB
  | 0x32 => some execLSH_AK
  | 0x33 => some execLSH_A
  | 0x34 => some execRSH_ABC
  | 0x35 => some execRSH_ABK
  | 0x36 => some execRSH_AB
  | 0x37 => some execRSH_AK
  | 0x38 => some execRSH_A
  | 0x39 => some execROL_A
  | 0x3a => some execROL_K
  | 0x3b => some execROL_P
  | 0x3c => some execROR_A
  | 0x3d => some execROR_K
  | 0x3e => some execROR_P
  | 0x3f => some execADD_ABC
  | 0x40 => some execADD_ABK
  | 0x41 => some execADD_AB
  | 0x42 => some execADD_AK
  | 0x43 => some execINC_A
  | 0x44 => some execINC_P
  | 0x45 => some execDEC_A
  | 0x46 => some execDEC_P
  | 0x47 => some execCALL_P
  | 0x48 => some execRET_O
  | 0x49 => some execPUSH_A
  | 0x4b => some execPOP_A
  | 0x4c => some execPOP_O
  | 0x4d => some execSEI_A
  | 0x4e => some execSEI_K
  | 0x4f => some execSEI_O
  | 0x50 => some execCHY_O
  | _ => none

/-- Failure mode of `cycle`: the fetched byte has no entry in the dispatch
table.  In the source `this.#instructions[instruction]` is `undefined` and
the call `callback()` throws an uncaught `TypeError`; no handler catches it
and no "invalid opcode" message exists anywhere in the program. -/
inductive VMErr where
  | undefinedHandler (opcode : Nat) (pc : Nat)
  deriving Repr, DecidableEq

/-- Source `cycle`: fetch the byte at PC and run the dispatched closure.
The `#updateAnalyser` call only mirrors state into the debug DOM. -/
def cycle (s : VM) : Except VMErr VM :=
  let r := fetchNext s
  match instructions r.1 with
  | some callback => .ok (callback r.2)
  | none => .error (.undefinedHandler r.1 s.pc)

/-- Source `#blit`: store 0 or 1 into the framebuffer byte for pixel
(x, y); the canvas fill that follows is host-side. -/
def blit (s : VM) (x y c : Nat) : VM :=
  let i := y * 64 + x
  if c = 0 then setMemory s (SCREEN_DATA_ADDR + i) 0
  else setMemory s (SCREEN_DATA_ADDR + i) 1

/-- Inner two loops of `#draw` for one text cell: read the glyph rows of
the cell's character and blit 8 x 8 pixels at the cell position. -/
def drawCell (s : VM) (x y li : Nat) : VM :=
  let letter := getMemory s (TXT_DATA_ADDR + li)
  let letterDataAddr := FONT_START_ADDR + letter * 8
  (List.range 8).foldl
    (fun s oy =>
      let byte := getMemory s (letterDataAddr + oy)
      (List.range 8).foldl
        (fun s ox => blit s (x + ox) (y + oy) ((byte >>> (7 - ox)) &&& 1))
        s)
    s

/-- Per-cell step of the `#draw` loop: draw the cell, then advance the
pixel position by 8 with wrap at 64, moving down a row on wrap. -/
def drawStep (acc : VM × Nat × Nat) (li : Nat) : VM × Nat × Nat :=
  let s := drawCell acc.1 acc.2.1 acc.2.2 li
  let x := (acc.2.1 + 8) &&& 0x3f
  let y := if x = 0 then acc.2.2 + 8 else acc.2.2
  (s, x, y)

/-- Source `#draw`: rasterise the 64 text cells through the font into the
framebuffer, advancing the cell position by 8 pixels with wrap at 64. -/
def draw (s : VM) : VM :=
  ((List.range 0x40).foldl drawStep (s, 0, 0)).1

/-- Source `#triggerInterrupt`: push the 16-bit PC and jump to the IRQ
vector at `0xfffc`/`0xfffd` (the `console.log` probe is omitted). -/
def triggerInterrupt (s : VM) : VM :=
  let s := { s with needsInterrupt := false }
  let s := pushToStack16 s s.pc
  let addr := getMemory16 s INT_START_ADDR
  setPC s addr

/-- Interrupt condition tested at the top of the `runCallback` loop:
`this.#cyclesSinceInterrupt === CYCLES_PER_INTERRUPT && this.getFlag(Flag.INTERRUPT)`. -/
def interruptFires (s : VM) : Bool :=
  s.cyclesSinceInterrupt == CYCLES_PER_INTERRUPT && s.flags.interrupt != 0

/-- Body of the `while` loop inside `runCallback`: when the interrupt
condition holds, render, enter the interrupt and reset the counter; then
execute one cycle and increment the counter.  `runCallback` repeats this
body while `running` holds and the clock is below the batch target, and
the ticker re-invokes `runCallback` forever, so consecutive executions of
this body are exactly the scheduler's cycle sequence. -/
def runCallbackBody (s : VM) : Except VMErr VM :=
  let s :=
    if interruptFires s then
      { triggerInterrupt (draw s) with cyclesSinceInterrupt := 0 }
    else s
  (cycle s).map fun s => { s with cyclesSinceInterrupt := s.cyclesSinceInterrupt + 1 }

/-- Iterated scheduler loop body. -/
def runCallbackIter : Nat → VM → Except VMErr VM
  | 0, s => .ok s
  | n + 1, s => (runCallbackBody s).bind (runCallbackIter n)

/-- Source `reset`: stop the ticker, reset the clock and the interrupt
counter, zero memory below the kernel (raw array writes, no flag update),
zero registers 0..15 through `setRegister`, and zero PC and SP. -/
def reset (s : VM) : VM :=
  let s := if s.running then { s with running := false } else s
  let s := { s with
    clock := 0,
    cyclesSinceInterrupt := 1,
    needsInterrupt := false,
    memory := fun i => if i < KERNEL_START_ADDR then 0 else s.memory i }
  let s := (List.range REG_COUNT).foldl (fun s i => setRegister s i 0) s
  let s := setPC s 0
  setSP s 0

end FrameVM

/-!
Shallow embedding of the assembler (`assembler.js`).  The `Assembler`
class keeps its cursor, output image, label tables and lookahead token in
mutable fields; here that state is the `Asm` structure threaded through
every function.  Loops (`while`, `do`/`while`, scanner loops) are written
with an explicit fuel parameter; the driver passes a fuel comfortably
above the number of loop iterations any input of the given length can
cause, and running out of fuel marks the state as errored so that no
theorem about a successful assembly can hinge on exhaustion.
-/

namespace Assembler

open FrameVM (MEMORY_SIZE SP)

/-- Source constant `START_POINT`. -/
def START_POINT : String := "main"

/-- Source constant `LABEL_LSB`. -/
def LABEL_LSB : Char := '<'

/-- Source constant `LABEL_MSB`. -/
def LABEL_MSB : Char := '>'

namespace TokenType

def INSTRUCTION : Nat := 0
def IDENTIFIER : Nat := 1
def LABEL : Nat := 2
def IMMEDIATE : Nat := 3
def REGISTER : Nat := 4
def DIRECTIVE : Nat := 5
def ADDRESS : Nat := 6
def INDIRECT : Nat := 7
def COMMA : Nat := 8
def RPAREN : Nat := 9
def ERROR : Nat := 254
def EOF : Nat := 255

end TokenType

namespace Mode

def O : Nat := 0x0
def A : Nat := 0x1
def K : Nat := 0x2
def P : Nat := 0x3
def AB : Nat := 0x4
def AK : Nat := 0x5
def AP : Nat := 0x6
def KA : Nat := 0x7
def KK : Nat := 0x8
def PA : Nat := 0x9
def PK : Nat := 0xa
def ABC : Nat := 0xb
def ABK : Nat := 0xc
def APB : Nat := 0xd
def APK : Nat := 0xe
def AIB : Nat := 0xf
def AIK : Nat := 0x10
def PAB : Nat := 0x11
def PAK : Nat := 0x12

end Mode

/-- Token payload.  In the source a lexeme is a string (identifiers,
mnemonics, punctuation, error messages), a number (immediates, registers,
addresses), a `{label, type}` object (deferred label-byte references), or
`null` (EOF). -/
inductive Lexeme where
  | nil
  | str (s : String)
  | num (n : Nat)
  | lref (label : String) (ltype : Char)
  deriving Repr, DecidableEq

/-- Token produced by `#createToken`, with the source position attached. -/
structure Token where
  type : Nat
  lexeme : Lexeme
  chr : Nat
  line : Nat
  deriving Repr, DecidableEq

/-- State of the `Assembler` class after `reset`: scanner cursor, output
image and emission cursor, error flag, one-token lookahead, label and
forward-reference tables, defines and start point.  The debug-info map
only feeds the analyser UI and is omitted. -/
structure Asm where
  src : List Char
  idx : Nat
  program : Nat → Nat
  pos : Nat
  line : Nat
  chr : Nat
  hadError : Bool
  token : Token
  hasLeftoverToken : Bool
  labels : List (String × Nat)
  unresolvedLabels : List (String × List Nat)
  unresolvedLsbLabels : List (String × List Nat)
  unresolvedMsbLabels : List (String × List Nat)
  defines : List (String × Token)
  startPoint : Nat

/-- JS `Map.get`. -/
def mapGet {α : Type} (m : List (String × α)) (k : String) : Option α :=
  m.lookup k

/-- JS `Map.set`: replace in place when the key exists, append otherwise. -/
def mapSet {α : Type} (m : List (String × α)) (k : String) (v : α) :
    List (String × α) :=
  if (m.lookup k).isSome then m.map fun p => if p.1 = k then (k, v) else p
  else m ++ [(k, v)]

/-- JS `Map.delete`. -/
def mapDelete {α : Type} (m : List (String × α)) (k : String) :
    List (String × α) :=
  m.filter fun p => p.1 ≠ k

/-- Source `#isAlpha`. -/
def isAlpha (c : Char) : Bool :=
  decide ('A' ≤ c ∧ c ≤ 'Z') || decide ('a' ≤ c ∧ c ≤ 'z')

/-- Source `#isDigit`. -/
def isDigit (c : Char) : Bool :=
  decide ('0' ≤ c ∧ c ≤ '9')

/-- Source `#isHex`. -/
def isHex (c : Char) : Bool :=
  isDigit c || decide ('A' ≤ c ∧ c ≤ 'F') || decide ('a' ≤ c ∧ c ≤ 'f')

/-- Source `#isOctal`. -/
def isOctal (c : Char) : Bool :=
  decide ('0' ≤ c ∧ c ≤ '7')

/-- Source `#isBinary`. -/
def isBinary (c : Char) : Bool :=
  c = '0' || c = '1'

/-- Source `#isIdentifier`. -/
def isIdentifierChar (c : Char) : Bool :=
  c = '_' || isAlpha c || isDigit c

/-- Source `#peek`: reading past the end of the string gives `undefined`. -/
def peekA (s : Asm) : Option Char :=
  s.src.get? s.idx

/-- Source `#reachedEndOfSource`. -/
def reachedEndOfSource (s : Asm) : Bool :=
  decide (s.src.length ≤ s.idx)

/-- Source `#advance`. -/
def advanceA (s : Asm) : Option Char × Asm :=
  (s.src.get? s.idx, { s with idx := s.idx + 1, chr := s.chr + 1 })

/-- Source `#rewind`. -/
def rewindA (s : Asm) : Asm :=
  if s.idx = 0 then s else { s with idx := s.idx - 1, chr := s.chr - 1 }

/-- Source `#createToken`. -/
def createToken (s : Asm) (type : Nat) (lexeme : Lexeme) : Token :=
  { type := type, lexeme := lexeme, chr := s.chr, line := s.line }

/-- Source `#createError`. -/
def createError (s : Asm) (msg : String) : Token :=
  createToken s TokenType.ERROR (.str msg)

/-- Source `#skipComment`: consume up to and including the newline. -/
def skipComment : Nat → Asm → Asm
  | 0, s => { s with hadError := true }
  | fuel + 1, s =>
    if reachedEndOfSource s then { s with line := s.line + 1, chr := 1 }
    else
      let r := advanceA s
      if r.1 = some '\n' then { r.2 with line := r.2.line + 1, chr := 1 }
      else skipComment fuel r.2

/-- Source `#skipSpaces`. -/
def skipSpaces : Nat → Asm → Asm
  | 0, s => { s with hadError := true }
  | fuel + 1, s =>
    match peekA s with
    | some ' ' | some '\t' | some '\r' => skipSpaces fuel (advanceA s).2
    | some '\n' => skipSpaces fuel (advanceA { s with line := s.line + 1, chr := 1 }).2
    | some '#' => skipSpaces fuel (skipComment fuel s)
    | _ => s

/-- Scanner loop of `#readIdentifier` (advance while the character class
matches). -/
def scanWhile (pred : Char → Bool) : Nat → Asm → Asm
  | 0, s => { s with hadError := true }
  | fuel + 1, s =>
    if reachedEndOfSource s then s
    else
      match peekA s with
      | some c => if pred c then scanWhile pred fuel (advanceA s).2 else s
      | none => s

/-- Source `#readIdentifier`: returns `source.substring(start, idx)`. -/
def readIdentifier (fuel : Nat) (s : Asm) : String × Asm :=
  let start := s.idx
  let s := scanWhile isIdentifierChar fuel s
  (String.mk ((s.src.drop start).take (s.idx - start)), s)

/-- Digit value used by `parseInt`. -/
def digitVal (c : Char) : Nat :=
  if decide ('0' ≤ c ∧ c ≤ '9') then c.toNat - '0'.toNat
  else if decide ('a' ≤ c ∧ c ≤ 'f') then c.toNat - 'a'.toNat + 10
  else if decide ('A' ≤ c ∧ c ≤ 'F') then c.toNat - 'A'.toNat + 10
  else 0

/-- JS `parseInt(digits, radix)` on a scanned digit run.  On an empty run
`parseInt` yields `NaN`, which every consumer of these readers masks into
a byte or uses as a dropped array index; no theorem below exercises an
empty run, and the value returned for it here is 0. -/
def parseIntRadix (digits : List Char) (radix : Nat) : Nat :=
  digits.foldl (fun acc c => acc * radix + digitVal c) 0

/-- Source `#readHexNumber`. -/
def readHexNumber (fuel : Nat) (s : Asm) : Nat × Asm :=
  let start := s.idx
  let s := scanWhile isHex fuel s
  (parseIntRadix ((s.src.drop start).take (s.idx - start)) 16, s)

/-- Source `#readOctalNumber`. -/
def readOctalNumber (fuel : Nat) (s : Asm) : Nat × Asm :=
  let start := s.idx
  let s := scanWhile isOctal fuel s
  (parseIntRadix ((s.src.drop start).take (s.idx - start)) 8, s)

/-- Source `#readBinaryNumber`. -/
def readBinaryNumber (fuel : Nat) (s : Asm) : Nat × Asm :=
  let start := s.idx
  let s := scanWhile isBinary fuel s
  (parseIntRadix ((s.src.drop start).take (s.idx - start)) 2, s)

/-- Source `#readDecimalNumber`. -/
def readDecimalNumber (fuel : Nat) (s : Asm) : Nat × Asm :=
  let start := s.idx
  let s := scanWhile isDigit fuel s
  (parseIntRadix ((s.src.drop start).take (s.idx - start)) 10, s)

/-- Mode/opcode pairs per mnemonic, from `#initOpMap`. -/
def opMapEntries : String → Option (List (Nat × Nat))
  | "hlt" => some [(Mode.A, FrameVM.Opcode.HLT_A), (Mode.K, FrameVM.Opcode.HLT_K), (Mode.O, FrameVM.Opcode.HLT_O)]
  | "mov" => some [(Mode.APB, FrameVM.Opcode.MOV_APB), (Mode.APK, FrameVM.Opcode.MOV_APK),
      (Mode.AIB, FrameVM.Opcode.MOV_AIB), (Mode.AIK, FrameVM.Opcode.MOV_AIK),
      (Mode.PAB, FrameVM.Opcode.MOV_PAB), (Mode.PAK, FrameVM.Opcode.MOV_PAK),
      (Mode.AB, FrameVM.Opcode.MOV_AB), (Mode.AK, FrameVM.Opcode.MOV_AK),
      (Mode.KA, FrameVM.Opcode.MOV_KA), (Mode.KK, FrameVM.Opcode.MOV_KK),
      (Mode.AP, FrameVM.Opcode.MOV_AP), (Mode.PA, FrameVM.Opcode.MOV_PA),
      (Mode.PK, FrameVM.Opcode.MOV_PK)]
  | "jmp" => some [(Mode.PA, FrameVM.Opcode.JMP_PA), (Mode.PK, FrameVM.Opcode.JMP_PK), (Mode.P, FrameVM.Opcode.JMP_P)]
  | "brt" => some [(Mode.PA, FrameVM.Opcode.BRT_PA), (Mode.PK, FrameVM.Opcode.BRT_PK), (Mode.P, FrameVM.Opcode.BRT_P)]
  | "brf" => some [(Mode.PA, FrameVM.Opcode.BRF_PA), (Mode.PK, FrameVM.Opcode.BRF_PK), (Mode.P, FrameVM.Opcode.BRF_P)]
  | "equ" => some [(Mode.AB, FrameVM.Opcode.EQU_AB), (Mode.AK, FrameVM.Opcode.EQU_AK),
      (Mode.PA, FrameVM.Opcode.EQU_PA), (Mode.PK, FrameVM.Opcode.EQU_PK)]
  | "lss" => some [(Mode.AB, FrameVM.Opcode.LSS_AB), (Mode.AK, FrameVM.Opcode.LSS_AK)]
  | "and" => some [(Mode.ABC, FrameVM.Opcode.AND_ABC), (Mode.ABK, FrameVM.Opcode.AND_ABK),
      (Mode.AB, FrameVM.Opcode.AND_AB), (Mode.AK, FrameVM.Opcode.AND_AK)]
  | "or" => some [(Mode.ABC, FrameVM.Opcode.OR_ABC), (Mode.ABK, FrameVM.Opcode.OR_ABK),
      (Mode.AB, FrameVM.Opcode.OR_AB), (Mode.AK, FrameVM.Opcode.OR_AK)]
  | "xor" => some [(Mode.ABC, FrameVM.Opcode.XOR_ABC), (Mode.ABK, FrameVM.Opcode.XOR_ABK),
      (Mode.AB, FrameVM.Opcode.XOR_AB), (Mode.AK, FrameVM.Opcode.XOR_AK)]
  | "not" => some [(Mode.AB, FrameVM.Opcode.NOT_AB), (Mode.AK, FrameVM.Opcode.NOT_AK),
      (Mode.A, FrameVM.Opcode.NOT_A), (Mode.O, FrameVM.Opcode.NOT_O)]
  | "lsh" => some [(Mode.ABC, FrameVM.Opcode.LSH_ABC), (Mode.ABK, FrameVM.Opcode.LSH_ABK),
      (Mode.AB, FrameVM.Opcode.LSH_AB), (Mode.AK, FrameVM.Opcode.LSH_AK), (Mode.A, FrameVM.Opcode.LSH_A)]
  | "rsh" => some [(Mode.ABC, FrameVM.Opcode.RSH_ABC), (Mode.ABK, FrameVM.Opcode.RSH_ABK),
      (Mode.AB, FrameVM.Opcode.RSH_AB), (Mode.AK, FrameVM.Opcode.RSH_AK), (Mode.A, FrameVM.Opcode.RSH_A)]
  | "rol" => some [(Mode.A, FrameVM.Opcode.ROL_A), (Mode.K, FrameVM.Opcode.ROL_K), (Mode.P, FrameVM.Opcode.ROL_P)]
  | "ror" => some [(Mode.A, FrameVM.Opcode.ROR_A), (Mode.K, FrameVM.Opcode.ROR_K), (Mode.P, FrameVM.Opcode.ROR_P)]
  | "add" => some [(Mode.ABC, FrameVM.Opcode.ADD_ABC), (Mode.ABK, FrameVM.Opcode.ADD_ABK),
      (Mode.AB, FrameVM.Opcode.ADD_AB), (Mode.AK, FrameVM.Opcode.ADD_AK)]
  | "inc" => some [(Mode.A, FrameVM.Opcode.INC_A), (Mode.P, FrameVM.Opcode.INC_P)]
  | "dec" => some [(Mode.A, FrameVM.Opcode.DEC_A), (Mode.P, FrameVM.Opcode.DEC_P)]
  | "call" => some [(Mode.P, FrameVM.Opcode.CALL_P)]
  | "ret" => some [(Mode.O, FrameVM.Opcode.RET_O)]
  | "push" => some [(Mode.A, FrameVM.Opcode.PUSH_A), (Mode.K, FrameVM.Opcode.PUSH_K)]
  | "pop" => some [(Mode.A, FrameVM.Opcode.POP_A), (Mode.O, FrameVM.Opcode.POP_O)]
  | "sei" => some [(Mode.A, FrameVM.Opcode.SEI_A), (Mode.K, FrameVM.Opcode.SEI_K), (Mode.O, FrameVM.Opcode.SEI_O)]
  | "chy" => some [(Mode.O, FrameVM.Opcode.CHY_O)]
  | _ => none

/-- JS `this.#opMap.has(identifier)`. -/
def isMnemonic (name : String) : Bool :=
  (opMapEntries name).isSome

/-- JS `opMap[mode]` for a given mnemonic. -/
def opMapLookup (name : String) (mode : Nat) : Option Nat :=
  (opMapEntries name).bind fun entries => entries.lookup mode

/-- Mnemonics in `#initOpMap` insertion order. -/
def mnemonics : List String :=
  ["hlt", "mov", "jmp", "brt", "brf", "equ", "lss", "and", "or", "xor",
   "not", "lsh", "rsh", "rol", "ror", "add", "inc", "dec", "call", "ret",
   "push", "pop", "sei", "chy"]

/-- Reverse table built at the end of `#initOpMap`: opcode to mode.
Opcodes are unique (`#ensureEnumUnique`), so the iteration order of the
source's map construction does not matter. -/
def modeMap (op : Nat) : Option Nat :=
  ((mnemonics.map fun m => ((opMapEntries m).getD []).map fun p => (p.2, p.1)).flatten).lookup op

/-- Kind-sequence table of `#initModeTrie`.  The trie maps each inserted
ordered list of argument token kinds to a mode; walking a sequence that
was not inserted (or stopping at an end-less prefix node) yields a falsy
value, embedded as `none`. -/
def modeTrieEntries : List (List Nat × Nat) :=
  [([TokenType.REGISTER], Mode.A),
   ([TokenType.IMMEDIATE], Mode.K),
   ([TokenType.ADDRESS], Mode.P),
   ([TokenType.REGISTER, TokenType.REGISTER], Mode.AB),
   ([TokenType.REGISTER, TokenType.IMMEDIATE], Mode.AK),
   ([TokenType.IMMEDIATE, TokenType.REGISTER], Mode.KA),
   ([TokenType.IMMEDIATE, TokenType.IMMEDIATE], Mode.KK),
   ([TokenType.REGISTER, TokenType.ADDRESS], Mode.AP),
   ([TokenType.ADDRESS, TokenType.REGISTER], Mode.PA),
   ([TokenType.ADDRESS, TokenType.IMMEDIATE], Mode.PK),
   ([TokenType.REGISTER, TokenType.REGISTER, TokenType.REGISTER], Mode.ABC),
   ([TokenType.REGISTER, TokenType.REGISTER, TokenType.IMMEDIATE], Mode.ABK),
   ([TokenType.REGISTER, TokenType.ADDRESS, TokenType.REGISTER], Mode.APB),
   ([TokenType.REGISTER, TokenType.ADDRESS, TokenType.IMMEDIATE], Mode.APK),
   ([TokenType.REGISTER, TokenType.INDIRECT, TokenType.REGISTER], Mode.AIB),
   ([TokenType.REGISTER, TokenType.INDIRECT, TokenType.IMMEDIATE], Mode.AIK),
   ([TokenType.ADDRESS, TokenType.REGISTER, TokenType.REGISTER], Mode.PAB),
   ([TokenType.ADDRESS, TokenType.REGISTER, TokenType.IMMEDIATE], Mode.PAK)]

/-- Source `findMode` on the trie. -/
def findMode (modeList : List Nat) : Option Nat :=
  modeTrieEntries.lookup modeList

/-- Source `#getModeFromArguments`. -/
def getModeFromArguments (args : List Token) : Option Nat :=
  if args.isEmpty then some Mode.O
  else findMode (args.map Token.type)

/-- String payload of a lexeme (identifier, mnemonic or label name). -/
def lexStr : Lexeme → String
  | .str s => s
  | _ => ""

/-- Source `#assembleIdentifier`: rewind to the first character, read the
identifier and classify it through the mnemonic table. -/
def assembleIdentifier (fuel : Nat) (s : Asm) : Token × Asm :=
  let s := rewindA s
  let r := readIdentifier fuel s
  if isMnemonic r.1 then (createToken r.2 TokenType.INSTRUCTION (.str r.1), r.2)
  else (createToken r.2 TokenType.IDENTIFIER (.str r.1), r.2)

/-- Source `#assembleNumber`: a leading `0` selects a radix from the next
character (`x`, `o`, `b`); otherwise rewind and read decimal. -/
def assembleNumber (fuel : Nat) (s : Asm) (first : Char) : Token × Asm :=
  if first = '0' then
    let r := advanceA s
    match r.1 with
    | some 'x' =>
      let rn := readHexNumber fuel r.2
      (createToken rn.2 TokenType.IMMEDIATE (.num rn.1), rn.2)
    | some 'o' =>
      let rn := readOctalNumber fuel r.2
      (createToken rn.2 TokenType.IMMEDIATE (.num rn.1), rn.2)
    | some 'b' =>
      let rn := readBinaryNumber fuel r.2
      (createToken rn.2 TokenType.IMMEDIATE (.num rn.1), rn.2)
    | _ =>
      let s := rewindA r.2
      let rn := readDecimalNumber fuel s
      (createToken rn.2 TokenType.IMMEDIATE (.num rn.1), rn.2)
  else
    let s := rewindA s
    let rn := readDecimalNumber fuel s
    (createToken rn.2 TokenType.IMMEDIATE (.num rn.1), rn.2)

/-- Source `#assembleLabel`: `@<name` and `@>name` produce deferred
label-byte immediates, `@name` produces a label token. -/
def assembleLabel (fuel : Nat) (s : Asm) : Token × Asm :=
  match peekA s with
  | some c =>
    if c = LABEL_LSB ∨ c = LABEL_MSB then
      let r := advanceA s
      let ri := readIdentifier fuel r.2
      (createToken ri.2 TokenType.IMMEDIATE (.lref ri.1 c), ri.2)
    else
      let ri := readIdentifier fuel s
      (createToken ri.2 TokenType.LABEL (.str ri.1), ri.2)
  | none =>
    let ri := readIdentifier fuel s
    (createToken ri.2 TokenType.LABEL (.str ri.1), ri.2)

/-- Source `#assembleRegister`: `$s` yields the stack-pointer index `SP`
without consuming the `s`; a hex digit run above 15 is an error. -/
def assembleRegister (fuel : Nat) (s : Asm) : Token × Asm :=
  match peekA s with
  | some 's' => (createToken s TokenType.REGISTER (.num SP), s)
  | c =>
    if (c.map isHex).getD false then
      let rn := readHexNumber fuel s
      if 15 < rn.1 then (createError rn.2 "no such register", rn.2)
      else (createToken rn.2 TokenType.REGISTER (.num rn.1), rn.2)
    else (createError s "expected register number", s)

/-- Source `#assembleDirective`. -/
def assembleDirective (fuel : Nat) (s : Asm) : Token × Asm :=
  let ri := readIdentifier fuel s
  (createToken ri.2 TokenType.DIRECTIVE (.str ri.1), ri.2)

/-- Source `#assembleAddress`: a hex number below `MEMORY_SIZE`. -/
def assembleAddress (fuel : Nat) (s : Asm) : Token × Asm :=
  match peekA s with
  | c =>
    if (c.map isHex).getD false then
      let rn := readHexNumber fuel s
      if MEMORY_SIZE ≤ rn.1 then
        (createError rn.2 "address is outside the 16-bit addressable range", rn.2)
      else (createToken rn.2 TokenType.ADDRESS (.num rn.1), rn.2)
    else (createError s "expected start of address", s)

/-- Source `#assembleCharacter`: a character literal, with `\n` as the
only recognised escape, closed by a quote. -/
def assembleCharacter (s : Asm) : Token × Asm :=
  let r1 := advanceA s
  match r1.1 with
  | some c0 =>
    if c0 = '\\' then
      let r2 := advanceA r1.2
      match r2.1 with
      | some 'n' =>
        let r3 := advanceA r2.2
        if r3.1 = some '\'' then
          (createToken r3.2 TokenType.IMMEDIATE (.num ('\n'.toNat &&& 0xff)), r3.2)
        else (createError r3.2 "expected closing quote", r3.2)
      | _ => (createError r2.2 "not a valid character", r2.2)
    else
      let r3 := advanceA r1.2
      if r3.1 = some '\'' then
        (createToken r3.2 TokenType.IMMEDIATE (.num (c0.toNat &&& 0xff)), r3.2)
      else (createError r3.2 "expected closing quote", r3.2)
  | none => (createError r1.2 "not a valid character", r1.2)

/-- Source `#assembleToken`.  The `(` case inlines `#assembleIndirect`,
which re-enters the tokenizer for the wrapped immediate and the closing
parenthesis (the source's `#expect` stores the scanned token in the
lookahead field). -/
def assembleToken : Nat → Asm → Token × Asm
  | 0, s => (createError s "out of fuel", { s with hadError := true })
  | fuel + 1, s =>
    let s := skipSpaces (fuel + 1) s
    if reachedEndOfSource s then (createToken s TokenType.EOF .nil, s)
    else
      let r := advanceA s
      let s := r.2
      match r.1 with
      | none => (createError s "unexpected character", s)
      | some c =>
        if isAlpha c then assembleIdentifier fuel s
        else if isDigit c then assembleNumber fuel s c
        else if c = '@' then assembleLabel fuel s
        else if c = '$' then assembleRegister fuel s
        else if c = '.' then assembleDirective fuel s
        else if c = '%' then assembleAddress fuel s
        else if c = '(' then
          let rt := assembleToken fuel s
          if rt.1.type ≠ TokenType.IMMEDIATE then
            (createError rt.2 "expected an immediate zero-page address", rt.2)
          else
            let rp := assembleToken fuel rt.2
            let s2 := { rp.2 with token := rp.1 }
            if rp.1.type ≠ TokenType.RPAREN then
              (createError s2 "expected closing parenthesis", s2)
            else
              match rt.1.lexeme with
              | .num addr =>
                if 0xff < addr then
                  (createError s2 "not a valid zero-page address", s2)
                else (createToken s2 TokenType.INDIRECT (.num addr), s2)
              | lex =>
                (createToken s2 TokenType.INDIRECT lex, s2)
        else if c = '\'' then assembleCharacter s
        else if c = ',' then (createToken s TokenType.COMMA (.str ","), s)
        else if c = ')' then (createToken s TokenType.RPAREN (.str ")"), s)
        else (createError s "unexpected character", s)

/-- Source `#expect`: scan a token into the lookahead field and compare
its type. -/
def expect (fuel : Nat) (s : Asm) (type : Nat) : Bool × Asm :=
  let r := assembleToken fuel s
  let s := { r.2 with token := r.1 }
  (r.1.type == type, s)

/-- Shared shape of the three forward-reference tables: append the
current emission offset to the label's list, creating it if absent. -/
def pushOffset (m : List (String × List Nat)) (label : String) (addr : Nat) :
    List (String × List Nat) :=
  match mapGet m label with
  | some offsets => mapSet m label (offsets ++ [addr])
  | none => mapSet m label [addr]

/-- Source `#resolveImmediate`: plain numbers pass through; deferred
label-byte references are resolved against the label table or recorded in
the LSB/MSB forward-reference table with a 0 placeholder. -/
def resolveImmediate (s : Asm) (t : Token) : Token × Asm :=
  match t.lexeme with
  | .lref label ltype =>
    match mapGet s.labels label with
    | some addr =>
      if ltype = LABEL_LSB then ({ t with lexeme := .num (addr &&& 0xff) }, s)
      else ({ t with lexeme := .num ((addr >>> 8) &&& 0xff) }, s)
    | none =>
      let addr := s.pos
      if ltype = LABEL_LSB then
        ({ t with lexeme := .num 0 },
         { s with unresolvedLsbLabels := pushOffset s.unresolvedLsbLabels label addr })
      else
        ({ t with lexeme := .num 0 },
         { s with unresolvedMsbLabels := pushOffset s.unresolvedMsbLabels label addr })
  | _ => (t, s)

/-- Source `#resolveLabel`: a known label becomes an address token; an
unknown one records the current emission offset and yields address 0. -/
def resolveLabel (s : Asm) (t : Token) : Token × Asm :=
  let label := lexStr t.lexeme
  match mapGet s.labels label with
  | some addr => (createToken s TokenType.ADDRESS (.num addr), s)
  | none =>
    let addr := s.pos
    (createToken s TokenType.ADDRESS (.num 0),
     { s with unresolvedLabels := pushOffset s.unresolvedLabels label addr })

/-- Source `#resolveIdentifier`. -/
def resolveIdentifier (s : Asm) (t : Token) : Option Token :=
  mapGet s.defines (lexStr t.lexeme)

/-- Source `#getValueFromArgument`.  For the four argument kinds the
lexeme is returned; every lexeme reaching this point is numeric except a
label-byte reference smuggled through `(...)`, which every consumer masks
to 0 (embedded as 0 here). -/
def getValueFromArgument (arg : Token) : Option Nat :=
  if arg.type = TokenType.IMMEDIATE ∨ arg.type = TokenType.REGISTER ∨
      arg.type = TokenType.ADDRESS ∨ arg.type = TokenType.INDIRECT then
    match arg.lexeme with
    | .num n => some n
    | _ => some 0
  else none

/-- Source `#getArgument`: scan one token and resolve it into an argument
token; `none` means "not an argument" (the token is left in the lookahead
field only on the default branch, as in the source). -/
def getArgument (fuel : Nat) (s : Asm) : Option Token × Asm :=
  let r := assembleToken fuel s
  let t := r.1
  let s := r.2
  if t.type = TokenType.REGISTER ∨ t.type = TokenType.ADDRESS ∨
      t.type = TokenType.INDIRECT then (some t, s)
  else if t.type = TokenType.IMMEDIATE then
    let ri := resolveImmediate s t
    (some ri.1, ri.2)
  else if t.type = TokenType.LABEL then
    let rl := resolveLabel s t
    (some rl.1, rl.2)
  else if t.type = TokenType.IDENTIFIER then (resolveIdentifier s t, s)
  else
    let s := { s with token := t }
    (if t.type = TokenType.ERROR then some t else none, s)

/-- Source `#getArguments`: collect comma-separated arguments; an
exhausted argument position or a missing comma sets the leftover-token
flag; an error token aborts. -/
def getArgumentsLoop : Nat → Asm → List Token → (Option Token × List Token) × Asm
  | 0, s, args => ((some (createError s "out of fuel"), args), { s with hadError := true })
  | fuel + 1, s, args =>
    let r := getArgument fuel s
    match r.1 with
    | none => ((none, args), { r.2 with hasLeftoverToken := true })
    | some arg =>
      if arg.type = TokenType.ERROR then ((some arg, args), r.2)
      else
        let args := args ++ [arg]
        let re := expect fuel r.2 TokenType.COMMA
        if re.1 then getArgumentsLoop fuel re.2 args
        else ((none, args), { re.2 with hasLeftoverToken := true })

/-- Byte store into the output `Uint8Array`: the value is wrapped to a
byte and a store beyond the array length is dropped. -/
def u8store (prog : Nat → Nat) (i v : Nat) : Nat → Nat :=
  if i < MEMORY_SIZE then fun x => if x = i then v &&& 0xff else prog x
  else prog

/-- Source `#emit`: store at the emission cursor and advance it. -/
def emit (s : Asm) (instruction : Nat) : Asm :=
  { s with program := u8store s.program s.pos instruction, pos := s.pos + 1 }

/-- Source `#prepareA`. -/
def prepareA (a : Nat) : Nat := a &&& 0xf

/-- Source `#prepareB`. -/
def prepareB (b : Nat) : Nat := (b &&& 0xf) <<< 4

/-- Source `#prepareC`. -/
def prepareC (c : Nat) : Nat := c &&& 0xf

/-- Source `#prepareK`. -/
def prepareK (k : Nat) : Nat := k &&& 0xff

/-- Source `#prepareP`: little-endian byte pair. -/
def prepareP (p : Nat) : Nat × Nat := (p &&& 0xff, (p >>> 8) &&& 0xff)

/-- Source `#emitO`. -/
def emitO (s : Asm) (op : Nat) : Asm := emit s op

/-- Source `#emitA`. -/
def emitA (s : Asm) (op a : Nat) : Asm := emit (emit s op) (prepareA a)

/-- Source `#emitK`. -/
def emitK (s : Asm) (op k : Nat) : Asm := emit (emit s op) (prepareK k)

/-- Source `#emitP`. -/
def emitP (s : Asm) (op p : Nat) : Asm :=
  let lohi := prepareP p
  emit (emit (emit s op) lohi.1) lohi.2

/-- Source `#emitAB`. -/
def emitAB (s : Asm) (op a b : Nat) : Asm :=
  emit (emit s op) (prepareA a ||| prepareB b)

/-- Source `#emitAK`. -/
def emitAK (s : Asm) (op a k : Nat) : Asm := emit (emitA s op a) (prepareK k)

/-- Source `#emitKA`. -/
def emitKA (s : Asm) (op k a : Nat) : Asm := emit (emitK s op k) (prepareA a)

/-- Source `#emitKK`. -/
def emitKK (s : Asm) (op k l : Nat) : Asm := emit (emitK s op k) (prepareK l)

/-- Source `#emitAP`. -/
def emitAP (s : Asm) (op a p : Nat) : Asm :=
  let lohi := prepareP p
  emit (emit (emitA s op a) lohi.1) lohi.2

/-- Source `#emitPA`. -/
def emitPA (s : Asm) (op p a : Nat) : Asm := emit (emitP s op p) (prepareA a)

/-- Source `#emitPK`. -/
def emitPK (s : Asm) (op p k : Nat) : Asm := emit (emitP s op p) (prepareK k)

/-- Source `#emitABC`. -/
def emitABC (s : Asm) (op a b c : Nat) : Asm :=
  emit (emitAB s op a b) (prepareC c)

/-- Source `#emitABK`. -/
def emitABK (s : Asm) (op a b k : Nat) : Asm :=
  emit (emitAB s op a b) (prepareK k)

/-- Source `#emitPAB`. -/
def emitPAB (s : Asm) (op p a b : Nat) : Asm :=
  emit (emitP s op p) (prepareA a ||| prepareB b)

/-- Source `#emitPAK`. -/
def emitPAK (s : Asm) (op p a k : Nat) : Asm :=
  emit (emit (emitP s op p) (prepareA a)) (prepareK k)

/-- Source `#emitAPB`: re-ordered emission through `#emitPAB`. -/
def emitAPB (s : Asm) (op a p b : Nat) : Asm := emitPAB s op p a b

/-- Source `#emitAPK`. -/
def emitAPK (s : Asm) (op a p k : Nat) : Asm := emitPAK s op p a k

/-- Source `#emitAIB`: emitted as ABK with the indirect byte in the K slot. -/
def emitAIB (s : Asm) (op a i b : Nat) : Asm := emitABK s op a b i

/-- Source `#emitAIK`. -/
def emitAIK (s : Asm) (op a i k : Nat) : Asm :=
  emit (emitAK s op a i) (prepareK k)

/-- Local closure `fix` of `#fixUnresolvedLabel`: write the two address
bytes (low then high) starting at the given position. -/
def fixTwo (lo hi : Nat) (prog : Nat → Nat) (at1 : Nat) : Nat → Nat :=
  u8store (u8store prog at1 lo) (at1 + 1) hi

/-- Loop of `#fixUnresolvedLabel`: for each recorded offset, read the
opcode byte there, recover its mode, and write the address bytes at the
mode's address position (`fix(i)` after `i++` for the address-first
modes, `fix(i + 1)` for `AP`); offsets whose byte has no
address-carrying mode are skipped. -/
def fixLoop (lo hi : Nat) : List Nat → (Nat → Nat) → Nat → Nat
  | [], prog => prog
  | i :: rest, prog =>
    let op := prog i
    let prog :=
      match modeMap op with
      | some m =>
        if m = Mode.P ∨ m = Mode.PA ∨ m = Mode.PK ∨ m = Mode.APB ∨
            m = Mode.PAB ∨ m = Mode.APK ∨ m = Mode.PAK then fixTwo lo hi prog (i + 1)
        else if m = Mode.AP then fixTwo lo hi prog (i + 2)
        else prog
      | none => prog
    fixLoop lo hi rest prog

/-- Source `#fixUnresolvedLabel`: patch every recorded offset of the
label, then remove it from the whole-address forward-reference table. -/
def fixUnresolvedLabel (s : Asm) (label : String) (addr : Nat)
    (unresolved : List Nat) : Asm :=
  let lo := addr &&& 0xff
  let hi := (addr >>> 8) &&& 0xff
  { s with program := fixLoop lo hi unresolved s.program,
           unresolvedLabels := mapDelete s.unresolvedLabels label }

/-- Source `#fixUnresolvedLabelImmediate`: write the single resolved byte
at the K slot located from the opcode's mode. -/
def fixUnresolvedLabelImmediate (s : Asm) (addr : Nat)
    (unresolved : List Nat) : Asm :=
  let fix := fun (prog : Nat → Nat) (at1 : Nat) => u8store prog at1 addr
  let prog := unresolved.foldl
    (fun prog i =>
      let op := prog i
      match modeMap op with
      | some m =>
        if m = Mode.K then fix prog (i + 1)
        else if m = Mode.AK ∨ m = Mode.ABK then fix prog (i + 2)
        else if m = Mode.PK then fix prog (i + 3)
        else if m = Mode.APK ∨ m = Mode.PAK then fix prog (i + 4)
        else prog
      | none => prog)
    s.program
  { s with program := prog }

/-- Source `#emitLabel`.  The redefinition guard is
`label[0] !== "_" && this.#labels.get(label)`: the second conjunct is a
truthiness test on the stored address, so a previous binding to address 0
does not trigger the error. -/
def emitLabel (s : Asm) (t : Token) : Option Token × Asm :=
  let label := lexStr t.lexeme
  let addr := s.pos
  if label.data.head? ≠ some '_' ∧ (mapGet s.labels label).getD 0 ≠ 0 then
    (some (createError s "tried to redefine label"), s)
  else
    let s := { s with labels := mapSet s.labels label addr }
    let s :=
      match mapGet s.unresolvedLabels label with
      | some unresolved => fixUnresolvedLabel s label addr unresolved
      | none => s
    let s :=
      match mapGet s.unresolvedLsbLabels label with
      | some unresolvedLsb =>
        let s := fixUnresolvedLabelImmediate s (addr &&& 0xff) unresolvedLsb
        { s with unresolvedLsbLabels := mapDelete s.unresolvedLsbLabels label }
      | none => s
    let s :=
      match mapGet s.unresolvedMsbLabels label with
      | some unresolvedMsb =>
        let s := fixUnresolvedLabelImmediate s ((addr >>> 8) &&& 0xff) unresolvedMsb
        { s with unresolvedMsbLabels := mapDelete s.unresolvedMsbLabels label }
      | none => s
    (none, s)

/-- Source `#getDirectiveArg`: fetch an argument token and extract its
numeric value; both failures produce an error token. -/
def getDirectiveArg (fuel : Nat) (s : Asm) : (Option Nat × Option Token) × Asm :=
  let r := getArgument fuel s
  match r.1 with
  | none => ((none, some (createError r.2 "couldn't retrieve next argument")), r.2)
  | some arg =>
    match getValueFromArgument arg with
    | none => ((none, some (createError r.2 "expected an argument")), r.2)
    | some value => ((some value, none), r.2)

/-- Source `#emitDirectiveAddr`: set the emission cursor. -/
def emitDirectiveAddr (fuel : Nat) (s : Asm) : Option Token × Asm :=
  let r := getDirectiveArg fuel s
  match r.1.1, r.1.2 with
  | _, some err => (some err, r.2)
  | some addr, none => (none, { r.2 with pos := addr })
  | none, none => (none, r.2)

/-- Loop of `#emitDirectiveByte`: emit comma-separated bytes; an argument
error just stops the loop (it is not propagated), a missing comma sets
the leftover-token flag. -/
def emitDirectiveByteLoop : Nat → Asm → Asm
  | 0, s => { s with hadError := true }
  | fuel + 1, s =>
    let r := getDirectiveArg fuel s
    match r.1.1 with
    | none => r.2
    | some byte =>
      let s := emit r.2 byte
      let re := expect fuel s TokenType.COMMA
      if re.1 then emitDirectiveByteLoop fuel re.2
      else { re.2 with hasLeftoverToken := true }

/-- Loop of `#emitDirectiveWord`: emit low byte then high byte per
argument; unlike `.byte` it never consumes a comma, so the loop stops at
the first token that is not an argument. -/
def emitDirectiveWordLoop : Nat → Asm → Asm
  | 0, s => { s with hadError := true }
  | fuel + 1, s =>
    let r := getDirectiveArg fuel s
    match r.1.1 with
    | none => r.2
    | some word =>
      let lo := word &&& 0xff
      let hi := (word >>> 8) &&& 0xff
      emitDirectiveWordLoop fuel (emit (emit r.2 lo) hi)

/-- Source `#emitDirectiveDef`: bind an identifier to the next token. -/
def emitDirectiveDef (fuel : Nat) (s : Asm) : Option Token × Asm :=
  let ri := assembleToken fuel s
  if ri.1.type ≠ TokenType.IDENTIFIER then
    (some (createError ri.2 "expected identifier"), ri.2)
  else
    let rv := assembleToken fuel ri.2
    (none, { rv.2 with defines := mapSet rv.2.defines (lexStr ri.1.lexeme) rv.1 })

/-- Source `#emitDirective`: dispatch on the directive name. -/
def emitDirective (fuel : Nat) (s : Asm) (t : Token) : Option Token × Asm :=
  let name := lexStr t.lexeme
  if name = "addr" then emitDirectiveAddr fuel s
  else if name = "byte" then (none, emitDirectiveByteLoop fuel s)
  else if name = "def" then emitDirectiveDef fuel s
  else if name = "word" then (none, emitDirectiveWordLoop fuel s)
  else (some (createError s "no such directive"), s)

/-- Source `#emitOpFromArgs`: look the opcode up from the mnemonic's mode
table and emit it with the argument values.  The guard `!op` in the
source also fires when the opcode value is 0 (`HLT_A`). -/
def emitOpFromArgs (s : Asm) (mode : Option Nat) (opName : String)
    (args : List Token) : Option Token × Asm :=
  let op? := mode.bind fun m => opMapLookup opName m
  match op? with
  | none => (some (createError s "incorrect arguments"), s)
  | some op =>
    if op = 0 then (some (createError s "incorrect arguments"), s)
    else
      let values := args.map fun a => (getValueFromArgument a).getD 0
      let m := mode.getD 0
      let v0 := values.getD 0 0
      let v1 := values.getD 1 0
      let v2 := values.getD 2 0
      if m = Mode.O then (none, emitO s op)
      else if m = Mode.A then (none, emitA s op v0)
      else if m = Mode.K then (none, emitK s op v0)
      else if m = Mode.P then (none, emitP s op v0)
      else if m = Mode.AB then (none, emitAB s op v0 v1)
      else if m = Mode.AK then (none, emitAK s op v0 v1)
      else if m = Mode.KA then (none, emitKA s op v0 v1)
      else if m = Mode.KK then (none, emitKK s op v0 v1)
      else if m = Mode.AP then (none, emitAP s op v0 v1)
      else if m = Mode.PA then (none, emitPA s op v0 v1)
      else if m = Mode.PK then (none, emitPK s op v0 v1)
      else if m = Mode.ABC then (none, emitABC s op v0 v1 v2)
      else if m = Mode.ABK then (none, emitABK s op v0 v1 v2)
      else if m = Mode.APB then (none, emitAPB s op v0 v1 v2)
      else if m = Mode.APK then (none, emitAPK s op v0 v1 v2)
      else if m = Mode.AIB then (none, emitAIB s op v0 v1 v2)
      else if m = Mode.AIK then (none, emitAIK s op v0 v1 v2)
      else if m = Mode.PAB then (none, emitPAB s op v0 v1 v2)
      else if m = Mode.PAK then (none, emitPAK s op v0 v1 v2)
      else (some (createError s "unknown or unhandled mode"), s)

/-- Source `#handleInstruction`: a newline right after the mnemonic means
mode `O`; otherwise parse the argument list and resolve its mode. -/
def handleInstruction (fuel : Nat) (s : Asm) (opName : String) :
    Option Token × Asm :=
  if peekA s = some '\n' then emitOpFromArgs s (some Mode.O) opName []
  else
    let r := getArgumentsLoop fuel s []
    match r.1.1 with
    | some err => (some err, r.2)
    | none => emitOpFromArgs r.2 (getModeFromArguments r.1.2) opName r.1.2

/-- Source `#logError`: sets the error flag (the console output is
host-side). -/
def logError (s : Asm) (_t : Token) : Asm :=
  { s with hadError := true }

/-- Source `#emitToken`: dispatch on the lookahead token's type.
Immediates and all other unhandled kinds fall through without effect. -/
def emitToken (fuel : Nat) (s : Asm) : Option Token × Asm :=
  let t := s.token
  if t.type = TokenType.INSTRUCTION then handleInstruction fuel s (lexStr t.lexeme)
  else if t.type = TokenType.LABEL then emitLabel s t
  else if t.type = TokenType.DIRECTIVE then emitDirective fuel s t
  else (none, s)

/-- Source `#handleToken`. -/
def handleToken (fuel : Nat) (s : Asm) : Bool × Asm :=
  let r := emitToken fuel s
  match r.1 with
  | none => (true, r.2)
  | some err => (false, logError r.2 err)

/-- Inner `do`/`while` of `#assemble`: re-handle the lookahead token while
the leftover flag is set. -/
def assembleInnerLoop : Nat → Asm → Asm
  | 0, s => { s with hadError := true }
  | fuel + 1, s =>
    let s := { s with hasLeftoverToken := false }
    let r := handleToken fuel s
    if !r.1 then r.2
    else if r.2.hasLeftoverToken then assembleInnerLoop fuel r.2
    else r.2

/-- Outer token loop of `#assemble`. -/
def assembleMainLoop : Nat → Asm → Asm
  | 0, s => { s with hadError := true }
  | fuel + 1, s =>
    let rt := assembleToken fuel s
    let s := { rt.2 with token := rt.1 }
    if rt.1.type = TokenType.EOF then s
    else if rt.1.type = TokenType.ERROR then logError s rt.1
    else assembleMainLoop fuel (assembleInnerLoop fuel s)

/-- Result of a successful assembly (`program` and `main`; the debug map
feeds the analyser UI only). -/
structure AsmOut where
  program : Nat → Nat
  main : Nat

/-- Seed tables accepted by `assembleProgram` (`#loadExtraInfo`) and
produced by `assembleProgramWithInfo`. -/
structure ExtraInfo where
  labels : List (String × Nat)
  defines : List (String × Token)

/-- State after `reset()` with the given source loaded.  The lookahead
token starts as `null` in the source; it is read only after being
assigned, so its initial value is immaterial. -/
def initialAsm (source : String) : Asm :=
  { src := source.data
    idx := 0
    program := fun _ => 0
    pos := 0
    line := 1
    chr := 1
    hadError := false
    token := { type := TokenType.EOF, lexeme := .nil, chr := 1, line := 1 }
    hasLeftoverToken := false
    labels := []
    unresolvedLabels := []
    unresolvedLsbLabels := []
    unresolvedMsbLabels := []
    defines := []
    startPoint := 0 }

/-- Fuel bound handed to the loops: every scanner and parser loop
consumes at least one character or one token per iteration, so a small
multiple of the source length suffices; exhaustion marks `hadError`. -/
def assembleFuel (source : String) : Nat :=
  source.length * 4 + 64

/-- Source `assembleProgram` (including `#assemble` and `#loadExtraInfo`):
run the token loop, report remaining unresolved labels, resolve the start
point, and return the image unless an error occurred. -/
def runAssembler (source : String) (extraInfo : Option ExtraInfo) : Asm :=
  let s := initialAsm source
  let s :=
    match extraInfo with
    | some info =>
      let s := { s with labels :=
        info.labels.foldl (fun m (p : String × Nat) => mapSet m p.1 p.2) s.labels }
      { s with defines :=
        info.defines.foldl (fun m (p : String × Token) => mapSet m p.1 p.2) s.defines }
    | none => s
  let s := assembleMainLoop (assembleFuel source) s
  let s :=
    if s.unresolvedLabels.length + s.unresolvedLsbLabels.length +
        s.unresolvedMsbLabels.length ≠ 0 then logError s (createError s "unresolved")
    else s
  match mapGet s.labels START_POINT with
  | some addr => { s with startPoint := addr }
  | none => { s with startPoint := 0 }

/-- Source `assembleProgram`: `null` on error. -/
def assembleProgram (source : String) (extraInfo : Option ExtraInfo) :
    Option AsmOut :=
  let s := runAssembler source extraInfo
  if s.hadError then none
  else some { program := s.program, main := s.startPoint }

/-- Source `assembleProgramWithInfo`: the program (or `null`) plus the
final label and define tables. -/
def assembleProgramWithInfo (source : String) (extraInfo : Option ExtraInfo) :
    Option AsmOut × ExtraInfo :=
  let s := runAssembler source extraInfo
  (if s.hadError then none else some { program := s.program, main := s.startPoint },
   { labels := s.labels, defines := s.defines })

end Assembler

/-!
Concrete machine states and assembly sources used as inputs by the
theorems below.
-/

namespace FrameVM

/-- Flag state installed by `#initFlags` (Interrupt-enable starts set). -/
def initFlags : Flags :=
  { carry := 0, interrupt := 1, zero := 0, negative := 0 }

/-- Machine state with the given registers, memory, PC and flags, the
scheduler fields as immediately after `reset` plus `run`
(`clock = 0`, `cyclesSinceInterrupt = 1`, running). -/
def mkVM (regs mem : Nat → Nat) (pc : Nat) (flags : Flags) : VM :=
  { registers := regs, pc := pc, flags := flags, input := 0, clock := 0,
    cyclesSinceInterrupt := 1, needsInterrupt := false, memory := mem,
    running := true, paused := false }

/-- Memory for the spec's indirect-load scenario: zero page `0x10 = 0x00`,
`0x11 = 0x03`, `memory[0x0305] = 0x77`, and at `0x200` the instruction
`MOV_AIK a=2, I=0x10, k=5` (bytes `06 02 10 05`). -/
def c1Mem : Nat → Nat := fun a =>
  if a = 0x200 then Opcode.MOV_AIK
  else if a = 0x201 then 0x02
  else if a = 0x202 then 0x10
  else if a = 0x203 then 0x05
  else if a = 0x10 then 0x00
  else if a = 0x11 then 0x03
  else if a = 0x305 then 0x77
  else 0

/-- State about to execute the indirect-load scenario. -/
def c1VM : VM := mkVM (fun _ => 0) c1Mem 0x200 initFlags

/-- State at a 960-cycle boundary with Interrupt-enable clear, whose
program is an endless stream of `SEI_O` (`sei`), the instruction that
re-enables interrupts. -/
def c2VM : VM :=
  { mkVM (fun _ => 0) (fun _ => Opcode.SEI_O) 0
      { carry := 0, interrupt := 0, zero := 0, negative := 0 } with
    cyclesSinceInterrupt := CYCLES_PER_INTERRUPT }

/-- State with SP = 255 at the top of the stack page and empty memory. -/
def c3VM : VM :=
  mkVM (fun r => if r = SP then 0xff else 0) (fun _ => 0) 0x200 initFlags

/-- State about to fetch the opcode byte `0x1b` (`EQU_PA`). -/
def c4VM : VM :=
  mkVM (fun _ => 0)
    (fun a => if a = 0 then Opcode.EQU_PA
      else if a = 1 then 0x00 else if a = 2 then 0x03
      else if a = 3 then 0x01 else 0)
    0 initFlags

/-- State about to execute the image assembled from `push $s`, with
register 1 = `0xab` and SP = 5. -/
def c6VM : VM :=
  mkVM (fun r => if r = 1 then 0xab else if r = SP then 5 else 0)
    (fun a => if a = 0 then Opcode.PUSH_A else if a = 1 then 0x01 else 0)
    0 initFlags

/-- State about to execute `NOT_AB` (byte `0x2b`). -/
def c10VM : VM :=
  mkVM (fun r => if r = 3 then 0x42 else 0)
    (fun a => if a = 0 then Opcode.NOT_AB else if a = 1 then 0x13 else 0)
    0 initFlags

/-- State about to execute `ADD_AK $1, 0xff` with register 1 = 2. -/
def c8akVM : VM :=
  mkVM (fun r => if r = 1 then 2 else 0)
    (fun a => if a = 0 then Opcode.ADD_AK else if a = 1 then 0x01
      else if a = 2 then 0xff else 0)
    0 initFlags

/-- State about to execute `ADD_AB $1, $2` with registers 1 = 200, 2 = 55. -/
def c8abVM : VM :=
  mkVM (fun r => if r = 1 then 200 else if r = 2 then 55 else 0)
    (fun a => if a = 0 then Opcode.ADD_AB else if a = 1 then 0x21 else 0)
    0 initFlags

/-- State about to execute `ADD_ABK $3, $1, 100` with register 1 = 200. -/
def c8abkVM : VM :=
  mkVM (fun r => if r = 1 then 200 else 0)
    (fun a => if a = 0 then Opcode.ADD_ABK else if a = 1 then 0x13
      else if a = 2 then 100 else 0)
    0 initFlags

/-- State about to execute `ADD_ABC $3, $1, $2` with registers 1 = 7, 2 = 8. -/
def c8abcVM : VM :=
  mkVM (fun r => if r = 1 then 7 else if r = 2 then 8 else 0)
    (fun a => if a = 0 then Opcode.ADD_ABC else if a = 1 then 0x13
      else if a = 2 then 0x02 else 0)
    0 initFlags

/-- Invariant for the C2 run: the program is an endless `sei` stream, no
input is pressed, interrupts are enabled again, and the interrupt counter
has already passed the 960-cycle boundary. -/
def c2Inv (s : VM) : Prop :=
  s.memory = (fun _ => Opcode.SEI_O) ∧ s.input = 0 ∧ s.flags.interrupt = 1 ∧
    CYCLES_PER_INTERRUPT < s.cyclesSinceInterrupt

/-- State after the first scheduler iteration from `c2VM`: the `sei` at
address 0 has re-enabled interrupts, and the counter is already past the
boundary. -/
def c2s1 : VM :=
  { registers := fun _ => 0, pc := 1,
    flags := { carry := 0, interrupt := 1, zero := 0, negative := 0 },
    input := 0, clock := 1, cyclesSinceInterrupt := CYCLES_PER_INTERRUPT + 1,
    needsInterrupt := false, memory := fun _ => Opcode.SEI_O,
    running := true, paused := false }

end FrameVM

namespace Assembler

/-- Source text whose label `foo` is first defined at address 0 and then
redefined. -/
def c7src : String := "@foo\nhlt\n@foo\nhlt\n"

/-- Source text whose label `foo` is first defined at a nonzero address
and then redefined. -/
def c7srcNonzero : String := "hlt\n@foo\nhlt\n@foo\nhlt\n"

/-- Source text with a forward label reference inside a `.byte` directive. -/
def c5src : String := ".addr 0x200\n.byte @end\n@end\nhlt\n"

/-- Source text of the spec's forward-label scenario. -/
def c5srcJmp : String := ".addr 0x200\n@main\njmp @end\n.byte 0xFF\n@end\nhlt\n"

/-- Result of assembling the `.byte` forward-reference program. -/
def c5res : Option AsmOut × ExtraInfo := assembleProgramWithInfo c5src none

/-- Result of assembling the label-redefinition programs. -/
def c7res : Option AsmOut × ExtraInfo := assembleProgramWithInfo c7src none

/-- Assembler state whose image has a `JMP_P` opcode at offset 10, used to
exercise the forward-reference patcher. -/
def c5wAsm : Asm :=
  { initialAsm "" with
    program := fun x => if x = 10 then FrameVM.Opcode.JMP_P else 0 }

end Assembler

/-!
Helper lemmas: bit masks as remainders, and the effect of the VM
primitives on registers, memory, input and flags.
-/

namespace FrameVM

theorem and_ffff (x : Nat) : x &&& 0xffff = x % 65536 := by
  have h := Nat.and_pow_two_sub_one_eq_mod x 16
  norm_num at h
  exact h

theorem and_ff (x : Nat) : x &&& 0xff = x % 256 := by
  have h := Nat.and_pow_two_sub_one_eq_mod x 8
  norm_num at h
  exact h

theorem and_f (x : Nat) : x &&& 0xf = x % 16 := by
  have h := Nat.and_pow_two_sub_one_eq_mod x 4
  norm_num at h
  exact h

@[simp] theorem jsByte_natCast (n : Nat) : jsByte (n : Int) = n % 256 := by
  unfold jsByte
  have h1 : (n : Int).emod (2 ^ 32) = ((n % 2 ^ 32 : Nat) : Int) := by
    push_cast
    rfl
  rw [h1, Int.toNat_natCast]
  have h2 := Nat.and_pow_two_sub_one_eq_mod (n % 2 ^ 32) 8
  norm_num at h2 ⊢
  exact h2

@[simp] theorem jsByte_zero : jsByte 0 = 0 := rfl

@[simp] theorem registers_fetchNext (s : VM) : ((fetchNext s).2).registers = s.registers := rfl
@[simp] theorem registers_getArgsA (s : VM) : ((getArgsA s).2).registers = s.registers := rfl
@[simp] theorem registers_getArgsK (s : VM) : ((getArgsK s).2).registers = s.registers := rfl
@[simp] theorem registers_getArgsP (s : VM) : ((getArgsP s).2).registers = s.registers := rfl
@[simp] theorem registers_getArgsAB (s : VM) : ((getArgsAB s).2).registers = s.registers := rfl
@[simp] theorem registers_getArgsAK (s : VM) : ((getArgsAK s).2).registers = s.registers := rfl
@[simp] theorem registers_getArgsKA (s : VM) : ((getArgsKA s).2).registers = s.registers := rfl
@[simp] theorem registers_getArgsKK (s : VM) : ((getArgsKK s).2).registers = s.registers := rfl
@[simp] theorem registers_getArgsAP (s : VM) : ((getArgsAP s).2).registers = s.registers := rfl
@[simp] theorem registers_getArgsPA (s : VM) : ((getArgsPA s).2).registers = s.registers := rfl
@[simp] theorem registers_getArgsPK (s : VM) : ((getArgsPK s).2).registers = s.registers := rfl
@[simp] theorem registers_getArgsABC (s : VM) : ((getArgsABC s).2).registers = s.registers := rfl
@[simp] theorem registers_getArgsABK (s : VM) : ((getArgsABK s).2).registers = s.registers := rfl
@[simp] theorem registers_getArgsPAB (s : VM) : ((getArgsPAB s).2).registers = s.registers := rfl
@[simp] theorem registers_getArgsPAK (s : VM) : ((getArgsPAK s).2).registers = s.registers := rfl
@[simp] theorem registers_getArgsAPB (s : VM) : ((getArgsAPB s).2).registers = s.registers := rfl
@[simp] theorem registers_getArgsAPK (s : VM) : ((getArgsAPK s).2).registers = s.registers := rfl
@[simp] theorem registers_getArgsAIB (s : VM) : ((getArgsAIB s).2).registers = s.registers := rfl
@[simp] theorem registers_getArgsAIK (s : VM) : ((getArgsAIK s).2).registers = s.registers := rfl

@[simp] theorem registers_setMemory (s : VM) (a : Nat) (v : Int) :
    (setMemory s a v).registers = s.registers := rfl

@[simp] theorem registers_setPC (s : VM) (v : Int) : (setPC s v).registers = s.registers := rfl

@[simp] theorem registers_pause (s : VM) : (pause s).registers = s.registers := by
  unfold pause
  split <;> rfl

@[simp] theorem registers_doSyscall (s : VM) (k : Nat) :
    (doSyscall s k).registers = s.registers := rfl

@[simp] theorem registers_addWithCarry (s : VM) (a b : Nat) :
    ((addWithCarry s a b).2).registers = s.registers := by
  unfold addWithCarry
  dsimp only
  split <;> rfl

@[simp] theorem registers_blit (s : VM) (x y c : Nat) :
    (blit s x y c).registers = s.registers := by
  unfold blit
  split <;> rfl

@[simp] theorem registers_drawCell (s : VM) (x y li : Nat) :
    (drawCell s x y li).registers = s.registers := by
  unfold drawCell
  have h8 : List.range 8 = [0, 1, 2, 3, 4, 5, 6, 7] := rfl
  rw [h8]
  simp

@[simp] theorem registers_draw (s : VM) : (draw s).registers = s.registers := by
  unfold draw
  have h : ∀ (l : List Nat) (acc : VM × Nat × Nat),
      ((l.foldl drawStep acc).1).registers = acc.1.registers := by
    intro l
    induction l with
    | nil => intro acc; rfl
    | cons a t ih =>
      intro acc
      rw [List.foldl_cons, ih]
      unfold drawStep
      simp
  exact h _ _

theorem registers_zero_setRegister (s : VM) (r : Nat) (v : Int) (h0 : s.registers 0 = 0) :
    (setRegister s r v).registers 0 = 0 := by
  unfold setRegister
  by_cases hr : r = 0
  · subst hr
    simp
  · have hr0 : ¬ (0 = r) := fun h => hr h.symm
    simp [hr0, h0]

attribute [simp] registers_zero_setRegister

@[simp] theorem registers_zero_setSP (s : VM) (v : Int) (h0 : s.registers 0 = 0) :
    (setSP s v).registers 0 = 0 := by
  unfold setSP
  exact registers_zero_setRegister s SP v h0

@[simp] theorem registers_zero_popFromStack (s : VM) (h0 : s.registers 0 = 0) :
    ((popFromStack s).2).registers 0 = 0 := by
  unfold popFromStack
  simp [h0]

@[simp] theorem registers_zero_pushToStack (s : VM) (v : Int) (h0 : s.registers 0 = 0) :
    (pushToStack s v).registers 0 = 0 := by
  unfold pushToStack
  simp [h0]

@[simp] theorem registers_zero_pushToStack16 (s : VM) (v : Nat) (h0 : s.registers 0 = 0) :
    (pushToStack16 s v).registers 0 = 0 := by
  unfold pushToStack16
  simp [h0]

@[simp] theorem registers_zero_triggerInterrupt (s : VM) (h0 : s.registers 0 = 0) :
    (triggerInterrupt s).registers 0 = 0 := by
  unfold triggerInterrupt
  simp [h0]

set_option maxHeartbeats 2000000 in
/-- Every closure of the instruction dispatch table keeps register 0 at 0. -/
theorem instructions_registers_zero (op : Nat) (h : VM → VM)
    (hs : instructions op = some h) (s : VM) (h0 : s.registers 0 = 0) :
    (h s).registers 0 = 0 := by
  unfold instructions at hs
  split at hs
  all_goals first
    | exact Option.noConfusion hs
    | (cases hs
       simp only [execHLT_A, execHLT_K, execHLT_O, execMOV_APB, execMOV_APK,
         execMOV_AIB, execMOV_AIK, execMOV_PAB, execMOV_PAK, execMOV_AB,
         execMOV_AK, execMOV_AP, execMOV_KA, execMOV_KK, execMOV_PA, execMOV_PK,
         execJMP_PA, execJMP_PK, execJMP_P, execBRT_PA, execBRT_PK, execBRT_P,
         execBRF_PA, execBRF_PK, execBRF_P, execEQU_AB, execEQU_AK, execLSS_AB,
         execLSS_AK, execAND_ABC, execAND_ABK, execAND_AB, execAND_AK,
         execOR_ABC, execOR_ABK, execOR_AB, execOR_AK, execXOR_ABC, execXOR_ABK,
         execXOR_AB, execXOR_AK, execNOT_AB, execNOT_AK, execNOT_A, execNOT_O,
         execROL_A, execROL_K, execROL_P, execROR_A, execROR_K, execROR_P,
         execLSH_ABC, execLSH_ABK, execLSH_AB, execLSH_AK, execLSH_A,
         execRSH_ABC, execRSH_ABK, execRSH_AB, execRSH_AK, execRSH_A,
         execADD_ABC, execADD_ABK, execADD_AB, execADD_AK, execINC_A, execINC_P,
         execDEC_A, execDEC_P, execCALL_P, execRET_O, execPUSH_A, execPOP_A,
         execPOP_O, execSEI_A, execSEI_K, execSEI_O, execCHY_O, popFromStack16]
       first
         | (split <;> simp [h0])
         | simp [h0])

end FrameVM


/-!
Claim theorems.
-/

/-- C1: the spec's indirect-load scenario — zero page `0x10 = 0x00`,
`0x11 = 0x03`, `memory[0x0305] = 0x77`, executing `MOV_AIK` with a = 2,
I = `0x10`, k = 5 — leaves register 2 equal to `0x05`, not `0x77`: the
handler computes the 16-bit base pointer `0x0300`, adds k, and stores
that sum (masked to a byte) directly into the register, omitting the
`getMemory` load that the claim (and the parallel `MOV_AIB` handler)
require. -/
theorem frame_c1_mov_aik_stores_pointer_not_memory :
    (FrameVM.cycle FrameVM.c1VM).map (fun s => s.registers 2) = .ok 0x05 ∧
    FrameVM.c1VM.memory 0x0305 = 0x77 :=
  ⟨rfl, rfl⟩

/-- C3: with SP = 255, a push writes `0x01ff` and wraps SP to 0, but the
immediately following pop returns 0 (the byte at zero-page address
`0x00ff`), not the pushed value `0x77`, because `popFromStack` computes
the address `0x0100 + (SP - 1)` from the unwrapped value `-1`.  SP itself
is restored to 255 through the register write's wrap. -/
theorem frame_c3_pop_after_wrap_reads_zero_page :
    (FrameVM.popFromStack (FrameVM.pushToStack FrameVM.c3VM 0x77)).1 = 0 ∧
    (FrameVM.pushToStack FrameVM.c3VM 0x77).memory 0x01ff = 0x77 ∧
    FrameVM.getSP (FrameVM.pushToStack FrameVM.c3VM 0x77) = 0 ∧
    FrameVM.getSP (FrameVM.popFromStack (FrameVM.pushToStack FrameVM.c3VM 0x77)).2 = 0xff :=
  ⟨rfl, rfl, rfl, rfl⟩

/-- C4: the assembler maps `equ` with an address/register argument pair
to opcode `0x1b` (`EQU_PA`) and emits it (shown for `equ %300, $1`), but
the VM's dispatch table has no entry for `0x1b` or `0x1c`, so executing
that byte does not produce any defined "invalid opcode" error: the
dispatch lookup fails and the source throws an uncaught `TypeError`
(embedded as the `undefinedHandler` error). -/
theorem frame_c4_equ_pa_opcode_has_no_handler :
    Assembler.opMapLookup "equ" Assembler.Mode.PA = some FrameVM.Opcode.EQU_PA ∧
    (Assembler.assembleProgram "equ %300, $1\n" none).map (fun o => o.program 0) =
      some FrameVM.Opcode.EQU_PA ∧
    FrameVM.instructions FrameVM.Opcode.EQU_PA = none ∧
    FrameVM.instructions FrameVM.Opcode.EQU_PK = none ∧
    FrameVM.cycle FrameVM.c4VM = .error (.undefinedHandler FrameVM.Opcode.EQU_PA 0) :=
  ⟨rfl, rfl, rfl, rfl, rfl⟩

/-- C6: `push $s` assembles to `PUSH_A` with operand byte `0x01`, because
the lexer encodes `$s` as register index 17 and `#prepareA` masks it with
`0xf`; executing the image with register 1 = `0xab` and SP = 5 therefore
pushes `0xab` (the contents of general-purpose register 1), not the stack
pointer. -/
theorem frame_c6_dollar_s_assembles_to_register_one :
    (Assembler.assembleProgram "push $s\n" none).map (fun o => (o.program 0, o.program 1)) =
      some (FrameVM.Opcode.PUSH_A, 0x01) ∧
    (FrameVM.cycle FrameVM.c6VM).map (fun s => (s.memory 0x0105, FrameVM.getSP s)) =
      .ok (0xab, 6) :=
  ⟨rfl, rfl⟩

/-- C7: the program `@foo\nhlt\n@foo\nhlt\n`, whose label `foo` (no `_`
prefix) is first bound to address 0 and then redefined, assembles without
error and ends with `foo = 1`, because `#emitLabel` guards redefinition
with a truthiness test of the stored address; the same redefinition with
a nonzero first binding is rejected. -/
theorem frame_c7_label_at_zero_silently_redefined :
    (Assembler.c7res.1).isSome = true ∧
    Assembler.mapGet Assembler.c7res.2.labels "foo" = some 1 ∧
    (Assembler.assembleProgram Assembler.c7srcNonzero none).isNone = true :=
  ⟨rfl, rfl, rfl⟩

/-- C5 counterexample: assembling `.addr 0x200\n.byte @end\n@end\nhlt\n`
succeeds and resolves `end` to `0x201`, yet the byte at `0x200` — the
recorded forward-reference site of the `.byte` argument — remains the
placeholder 0 instead of the label's address low byte `0x201 &&& 0xff = 1`:
`#fixUnresolvedLabel` locates patch positions from the opcode byte at the
site, and a directive site has no opcode. -/
theorem frame_c5_byte_forward_ref_unpatched :
    (Assembler.c5res.1).isSome = true ∧
    (Assembler.c5res.1).map (fun o => o.program 0x200) = some 0 ∧
    Assembler.mapGet Assembler.c5res.2.labels "end" = some 0x201 ∧
    (Assembler.c5res.1).map (fun o => o.program 0x200) ≠ some (0x201 &&& 0xff) :=
  ⟨rfl, rfl, rfl, by decide⟩

/-!
Further helper lemmas for the symbolic cycle computations, the scheduler
run of C2, the register-0 invariant and the back-patching lemmas.
-/

namespace FrameVM

@[simp] theorem getMemory_fetchNext (s : VM) (a : Nat) :
    getMemory ((fetchNext s).2) a = getMemory s a := rfl

@[simp] theorem pc_fetchNext (s : VM) : ((fetchNext s).2).pc = (s.pc + 1) &&& 0xffff := rfl

@[simp] theorem fetchNext_fst (s : VM) : (fetchNext s).1 = getMemory s s.pc := rfl

@[simp] theorem registers_setRegister (s : VM) (r : Nat) (v : Int) :
    (setRegister s r v).registers = fun x =>
      if x = r then jsByte (if r = 0 then 0 else v) else s.registers x := rfl

@[simp] theorem carry_setRegister (s : VM) (r : Nat) (v : Int) :
    (setRegister s r v).flags.carry = s.flags.carry := rfl

theorem c2_first_step : runCallbackBody c2VM = .ok c2s1 := rfl

theorem c2_first_inv : c2Inv c2s1 :=
  ⟨rfl, rfl, rfl, by simp [CYCLES_PER_INTERRUPT, CYCLES_PER_FRAME, c2s1]⟩

/-- One scheduler-loop iteration from a state satisfying `c2Inv` never
fires the interrupt and only advances the counter. -/
theorem c2_step (s : VM) (h : c2Inv s) :
    ∃ s', runCallbackBody s = .ok s' ∧ c2Inv s' ∧
      s'.cyclesSinceInterrupt = s.cyclesSinceInterrupt + 1 := by
  obtain ⟨hm, hi, hf, hc⟩ := h
  have hfires : interruptFires s = false := by
    simp only [interruptFires, Bool.and_eq_false_iff]
    left
    simp only [beq_eq_false_iff_ne, ne_eq]
    omega
  have hbody : runCallbackBody s =
      (cycle s).map fun t => { t with cyclesSinceInterrupt := t.cyclesSinceInterrupt + 1 } := by
    unfold runCallbackBody
    rw [hfires]
    simp
  by_cases hpc : s.pc = INPUT_DATA_ADDR
  · have hop : (fetchNext s).1 = (0x00 : Nat) := by
      show getMemory s s.pc = 0x00
      simp [getMemory, hpc, hi]
    have hcyc : cycle s = .ok (execHLT_A (fetchNext s).2) := by
      unfold cycle
      dsimp only
      rw [hop]
      rfl
    refine ⟨_, by rw [hbody, hcyc]; rfl, ⟨?_, ?_, ?_, ?_⟩, ?_⟩ <;>
      simp [execHLT_A, doSyscall, getArgsA, fetchNext, hm, hi, hf] <;> omega
  · by_cases hsz : s.pc < MEMORY_SIZE
    · have hop : (fetchNext s).1 = Opcode.SEI_O := by
        show getMemory s s.pc = Opcode.SEI_O
        simp [getMemory, hpc, hsz, hm]
      have hcyc : cycle s = .ok (execSEI_O (fetchNext s).2) := by
        unfold cycle
        dsimp only
        rw [hop]
        rfl
      refine ⟨_, by rw [hbody, hcyc]; rfl, ⟨?_, ?_, ?_, ?_⟩, ?_⟩ <;>
        simp [execSEI_O, fetchNext, hm, hi, hf] <;> omega
    · have hop : (fetchNext s).1 = (0x00 : Nat) := by
        show getMemory s s.pc = 0x00
        simp [getMemory, hpc, hsz]
      have hcyc : cycle s = .ok (execHLT_A (fetchNext s).2) := by
        unfold cycle
        dsimp only
        rw [hop]
        rfl
      refine ⟨_, by rw [hbody, hcyc]; rfl, ⟨?_, ?_, ?_, ?_⟩, ?_⟩ <;>
        simp [execHLT_A, doSyscall, getArgsA, fetchNext, hm, hi, hf] <;> omega

/-- Iterating the scheduler loop from a `c2Inv` state keeps the invariant
and adds one to the counter per iteration. -/
theorem c2_iter (n : Nat) :
    ∀ s, c2Inv s → ∃ s', runCallbackIter n s = .ok s' ∧ c2Inv s' ∧
      s'.cyclesSinceInterrupt = s.cyclesSinceInterrupt + n := by
  induction n with
  | zero => exact fun s h => ⟨s, rfl, h, rfl⟩
  | succ n ih =>
    intro s h
    obtain ⟨s1, hb, h1, hcsi1⟩ := c2_step s h
    obtain ⟨s2, hit, h2, hcsi2⟩ := ih s1 h1
    refine ⟨s2, ?_, h2, by omega⟩
    show (runCallbackBody s).bind (runCallbackIter n) = .ok s2
    rw [hb]
    exact hit

theorem registers_setRegister_self_zero (s : VM) (v : Int) :
    (setRegister s 0 v).registers 0 = 0 := by
  unfold setRegister
  simp

theorem fold_setRegister_reg0 :
    ∀ (l : List Nat) (t : VM), t.registers 0 = 0 →
      ((l.foldl (fun s i => setRegister s i 0) t)).registers 0 = 0 := by
  intro l
  induction l with
  | nil => exact fun t h => h
  | cons a rest ih =>
    intro t h
    rw [List.foldl_cons]
    exact ih _ (registers_zero_setRegister t a 0 h)

/-- Register 0 stays 0 across one fetch-decode-execute cycle. -/
theorem cycle_registers_zero (s s' : VM) (h0 : s.registers 0 = 0)
    (hc : cycle s = .ok s') : s'.registers 0 = 0 := by
  unfold cycle at hc
  dsimp only at hc
  revert hc
  cases hinst : instructions (fetchNext s).1 with
  | none => intro hc; exact Except.noConfusion hc
  | some hdl =>
    intro hc
    cases hc
    exact instructions_registers_zero _ _ hinst _ (by simpa using h0)

end FrameVM

namespace Assembler

open FrameVM (MEMORY_SIZE)

theorem u8store_other (prog : Nat → Nat) (i v x : Nat) (h : x ≠ i) :
    u8store prog i v x = prog x := by
  unfold u8store
  split
  · simp [h]
  · rfl

theorem u8store_self (prog : Nat → Nat) (i v : Nat) (h : i < MEMORY_SIZE) :
    u8store prog i v i = v &&& 0xff := by
  unfold u8store
  rw [if_pos h]
  simp

theorem fixTwo_other (lo hi : Nat) (prog : Nat → Nat) (a x : Nat)
    (h1 : x ≠ a) (h2 : x ≠ a + 1) : fixTwo lo hi prog a x = prog x := by
  unfold fixTwo
  rw [u8store_other _ _ _ _ h2, u8store_other _ _ _ _ h1]

theorem fixTwo_lo (lo hi : Nat) (prog : Nat → Nat) (a : Nat)
    (ha : a + 1 < MEMORY_SIZE) : fixTwo lo hi prog a a = lo &&& 0xff := by
  unfold fixTwo
  rw [u8store_other _ _ _ _ (by omega : a ≠ a + 1), u8store_self _ _ _ (by omega)]

theorem fixTwo_hi (lo hi : Nat) (prog : Nat → Nat) (a : Nat)
    (ha : a + 1 < MEMORY_SIZE) : fixTwo lo hi prog a (a + 1) = hi &&& 0xff := by
  unfold fixTwo
  rw [u8store_self _ _ _ ha]

/-- Positions away from every recorded site's patch window are unchanged
by the patch loop. -/
theorem fixLoop_untouched (lo hi : Nat) :
    ∀ (sites : List Nat) (prog : Nat → Nat) (x : Nat),
      (∀ j ∈ sites, x < j + 1 ∨ j + 3 < x) →
      fixLoop lo hi sites prog x = prog x := by
  intro sites
  induction sites with
  | nil => intro prog x _; rfl
  | cons j rest ih =>
    intro prog x hx
    have hj := hx j (List.mem_cons_self j rest)
    show fixLoop lo hi rest _ x = prog x
    rw [ih _ x fun j' hj' => hx j' (List.mem_cons_of_mem j hj')]
    cases hmod : modeMap (prog j) with
    | none => rfl
    | some m =>
      dsimp only
      split
      · exact fixTwo_other _ _ _ _ _ (by omega) (by omega)
      · split
        · exact fixTwo_other _ _ _ _ _ (by omega) (by omega)
        · rfl

/-- The patch loop writes the two address bytes at the position dictated
by the opcode's mode at any recorded site whose patch window does not
overlap another site's. -/
theorem fixLoop_patches (lo hi : Nat) :
    ∀ (sites : List Nat) (prog : Nat → Nat) (i m : Nat),
      i ∈ sites → sites.Nodup →
      (∀ j ∈ sites, j ≠ i → j + 3 < i ∨ i + 3 < j) →
      i + 3 < MEMORY_SIZE →
      modeMap (prog i) = some m →
      ((m = Mode.P ∨ m = Mode.PA ∨ m = Mode.PK ∨ m = Mode.APB ∨ m = Mode.PAB ∨
          m = Mode.APK ∨ m = Mode.PAK) →
        fixLoop lo hi sites prog (i + 1) = lo &&& 0xff ∧
        fixLoop lo hi sites prog (i + 2) = hi &&& 0xff) ∧
      (m = Mode.AP →
        fixLoop lo hi sites prog (i + 2) = lo &&& 0xff ∧
        fixLoop lo hi sites prog (i + 3) = hi &&& 0xff) := by
  intro sites
  induction sites with
  | nil => intro prog i m hin; exact absurd hin (List.not_mem_nil i)
  | cons j rest ih =>
    intro prog i m hin hnd hsep hmem hm
    by_cases hj : j = i
    · subst hj
      have hrest : ∀ x, (x = j + 1 ∨ x = j + 2 ∨ x = j + 3) →
          ∀ j' ∈ rest, x < j' + 1 ∨ j' + 3 < x := by
        intro x hx j' hj'
        have hne : j' ≠ j := fun h => (List.nodup_cons.mp hnd).1 (h ▸ hj')
        have := hsep j' (List.mem_cons_of_mem j hj') hne
        omega
      constructor
      · intro hP
        have hstep : fixLoop lo hi (j :: rest) prog =
            fixLoop lo hi rest (fixTwo lo hi prog (j + 1)) := by
          show fixLoop lo hi rest _ = _
          rw [hm]
          dsimp only
          rw [if_pos hP]
        rw [hstep]
        constructor
        · rw [fixLoop_untouched _ _ _ _ _ (hrest (j + 1) (Or.inl rfl))]
          exact fixTwo_lo _ _ _ _ (by omega)
        · rw [fixLoop_untouched _ _ _ _ _ (hrest (j + 2) (Or.inr (Or.inl rfl)))]
          exact fixTwo_hi _ _ _ _ (by omega)
      · intro hAP
        have hnotP : ¬ (m = Mode.P ∨ m = Mode.PA ∨ m = Mode.PK ∨ m = Mode.APB ∨
            m = Mode.PAB ∨ m = Mode.APK ∨ m = Mode.PAK) := by
          subst hAP
          decide
        have hstep : fixLoop lo hi (j :: rest) prog =
            fixLoop lo hi rest (fixTwo lo hi prog (j + 2)) := by
          show fixLoop lo hi rest _ = _
          rw [hm]
          dsimp only
          rw [if_neg hnotP, if_pos hAP]
        rw [hstep]
        constructor
        · rw [fixLoop_untouched _ _ _ _ _ (hrest (j + 2) (Or.inr (Or.inl rfl)))]
          exact fixTwo_lo _ _ _ _ (by omega)
        · rw [fixLoop_untouched _ _ _ _ _ (hrest (j + 3) (Or.inr (Or.inr rfl)))]
          exact fixTwo_hi _ _ _ _ (by omega)
    · have hii : i ∈ rest := by
        cases List.mem_cons.mp hin with
        | inl h => exact absurd h.symm hj
        | inr h => exact h
      have hsepji := hsep j (List.mem_cons_self j rest) hj
      have hstep : ∀ x, (x = i ∨ x = i + 1 ∨ x = i + 2 ∨ x = i + 3) →
          (match modeMap (prog j) with
            | some m' =>
              if m' = Mode.P ∨ m' = Mode.PA ∨ m' = Mode.PK ∨ m' = Mode.APB ∨
                  m' = Mode.PAB ∨ m' = Mode.APK ∨ m' = Mode.PAK then
                fixTwo lo hi prog (j + 1)
              else if m' = Mode.AP then fixTwo lo hi prog (j + 2)
              else prog
            | none => prog) x = prog x := by
        intro x hx
        cases hmod : modeMap (prog j) with
        | none => rfl
        | some m' =>
          dsimp only
          split
          · exact fixTwo_other _ _ _ _ _ (by omega) (by omega)
          · split
            · exact fixTwo_other _ _ _ _ _ (by omega) (by omega)
            · rfl
      have hunf : fixLoop lo hi (j :: rest) prog = fixLoop lo hi rest
          (match modeMap (prog j) with
            | some m' =>
              if m' = Mode.P ∨ m' = Mode.PA ∨ m' = Mode.PK ∨ m' = Mode.APB ∨
                  m' = Mode.PAB ∨ m' = Mode.APK ∨ m' = Mode.PAK then
                fixTwo lo hi prog (j + 1)
              else if m' = Mode.AP then fixTwo lo hi prog (j + 2)
              else prog
            | none => prog) := rfl
      have hm' : modeMap ((match modeMap (prog j) with
            | some m' =>
              if m' = Mode.P ∨ m' = Mode.PA ∨ m' = Mode.PK ∨ m' = Mode.APB ∨
                  m' = Mode.PAB ∨ m' = Mode.APK ∨ m' = Mode.PAK then
                fixTwo lo hi prog (j + 1)
              else if m' = Mode.AP then fixTwo lo hi prog (j + 2)
              else prog
            | none => prog) i) = some m := by
        rw [hstep i (Or.inl rfl)]
        exact hm
      have hrec := ih _ i m hii (List.nodup_cons.mp hnd).2
        (fun j' hj' hne => hsep j' (List.mem_cons_of_mem j hj') hne) hmem hm'
      rw [hunf]
      exact ⟨fun hP => hrec.1 hP, fun hAP => hrec.2 hAP⟩

end Assembler

open FrameVM in
/-- C10: executing `NOT_AB` (or `NOT_AK`) changes no register, no memory
byte and no flag; the complete effect of the cycle is consuming the
operand byte(s) and advancing the PC (two bytes for `NOT_AB`, three for
`NOT_AK`) together with the cycle clock, because the handlers call the
register read accessor `getRegister` where a `setRegister` was intended
and discard its result. -/
theorem frame_c10_not_handlers_only_advance_pc :
    (∀ s : VM, getMemory s s.pc = Opcode.NOT_AB →
      cycle s = .ok { s with pc := (s.pc + 2) % 65536, clock := s.clock + 2 }) ∧
    (∀ s : VM, getMemory s s.pc = Opcode.NOT_AK →
      cycle s = .ok { s with pc := (s.pc + 3) % 65536, clock := s.clock + 3 }) := by
  constructor
  · intro s h
    have hc : cycle s = .ok (execNOT_AB (fetchNext s).2) := by
      unfold cycle
      dsimp only
      rw [show (fetchNext s).1 = Opcode.NOT_AB from h]
      rfl
    rw [hc]
    congr 1
    have hpc : (((s.pc + 1) &&& 65535) + 1) &&& 65535 = (s.pc + 2) % 65536 := by
      simp only [and_ffff]
      omega
    ext <;> simp [execNOT_AB, getArgsAB, fetchNext, hpc]
  · intro s h
    have hc : cycle s = .ok (execNOT_AK (fetchNext s).2) := by
      unfold cycle
      dsimp only
      rw [show (fetchNext s).1 = Opcode.NOT_AK from h]
      rfl
    rw [hc]
    congr 1
    have hpc : (((((s.pc + 1) &&& 65535) + 1) &&& 65535) + 1) &&& 65535 =
        (s.pc + 3) % 65536 := by
      simp only [and_ffff]
      omega
    ext <;> simp [execNOT_AK, getArgsAK, getArgsA, fetchNext, hpc]

/-- Witness for C10 at the concrete state `c10VM`. -/
theorem frame_c10_witness :
    FrameVM.cycle FrameVM.c10VM =
      .ok { FrameVM.c10VM with pc := (FrameVM.c10VM.pc + 2) % 65536,
                               clock := FrameVM.c10VM.clock + 2 } :=
  frame_c10_not_handlers_only_advance_pc.1 FrameVM.c10VM rfl

open FrameVM in
/-- C8: each of the four `add` variants (`AK`, `AB`, `ABK`, `ABC`) stores
the operand sum modulo 256 into the destination register (any writable
destination, i.e. index in 1..15) and sets Carry to 1 exactly when the
unsigned sum exceeds 255, and to 0 otherwise.  Operand bytes are
addressed exactly as `fetchNext` computes its PC chain. -/
theorem frame_c8_add_carry_and_mod :
    (∀ (s : VM) (ab k : Nat),
      getMemory s s.pc = Opcode.ADD_AK →
      getMemory s ((s.pc + 1) &&& 0xffff) = ab →
      getMemory s ((((s.pc + 1) &&& 0xffff) + 1) &&& 0xffff) = k →
      ab &&& 0xf ≠ 0 →
      ∃ s', cycle s = .ok s' ∧
        s'.registers (ab &&& 0xf) = (getRegister s (ab &&& 0xf) + k) % 256 ∧
        s'.flags.carry = (if 255 < getRegister s (ab &&& 0xf) + k then 1 else 0)) ∧
    (∀ (s : VM) (ab : Nat),
      getMemory s s.pc = Opcode.ADD_AB →
      getMemory s ((s.pc + 1) &&& 0xffff) = ab →
      ab &&& 0xf ≠ 0 →
      ∃ s', cycle s = .ok s' ∧
        s'.registers (ab &&& 0xf) =
          (getRegister s (ab &&& 0xf) + getRegister s ((ab >>> 4) &&& 0xf)) % 256 ∧
        s'.flags.carry =
          (if 255 < getRegister s (ab &&& 0xf) + getRegister s ((ab >>> 4) &&& 0xf)
           then 1 else 0)) ∧
    (∀ (s : VM) (ab k : Nat),
      getMemory s s.pc = Opcode.ADD_ABK →
      getMemory s ((s.pc + 1) &&& 0xffff) = ab →
      getMemory s ((((s.pc + 1) &&& 0xffff) + 1) &&& 0xffff) = k →
      ab &&& 0xf ≠ 0 →
      ∃ s', cycle s = .ok s' ∧
        s'.registers (ab &&& 0xf) = (getRegister s ((ab >>> 4) &&& 0xf) + k) % 256 ∧
        s'.flags.carry =
          (if 255 < getRegister s ((ab >>> 4) &&& 0xf) + k then 1 else 0)) ∧
    (∀ (s : VM) (ab cb : Nat),
      getMemory s s.pc = Opcode.ADD_ABC →
      getMemory s ((s.pc + 1) &&& 0xffff) = ab →
      getMemory s ((((s.pc + 1) &&& 0xffff) + 1) &&& 0xffff) = cb →
      ab &&& 0xf ≠ 0 →
      ∃ s', cycle s = .ok s' ∧
        s'.registers (ab &&& 0xf) =
          (getRegister s ((ab >>> 4) &&& 0xf) + getRegister s (cb &&& 0xf)) % 256 ∧
        s'.flags.carry =
          (if 255 < getRegister s ((ab >>> 4) &&& 0xf) + getRegister s (cb &&& 0xf)
           then 1 else 0)) := by
  refine ⟨?_, ?_, ?_, ?_⟩
  · intro s ab k h0 h1 h2 ha
    have hc : cycle s = .ok (execADD_AK (fetchNext s).2) := by
      unfold cycle
      dsimp only
      rw [show (fetchNext s).1 = Opcode.ADD_AK from h0]
      rfl
    refine ⟨_, hc, ?_, ?_⟩
    · simp only [execADD_AK, getArgsAK, getArgsA, addWithCarry, getRegister,
        fetchNext_fst, getMemory_fetchNext, pc_fetchNext, registers_fetchNext, h1, h2,
        registers_setRegister, apply_ite]
      simp only [ha, if_false, if_true, ite_self, eq_self_iff_true, jsByte_natCast, and_ff]
      omega
    · simp only [execADD_AK, getArgsAK, getArgsA, addWithCarry, getRegister,
        fetchNext_fst, getMemory_fetchNext, pc_fetchNext, registers_fetchNext, h1, h2,
        carry_setRegister]
      split <;> dsimp only <;> split <;> omega
  · intro s ab h0 h1 ha
    have hc : cycle s = .ok (execADD_AB (fetchNext s).2) := by
      unfold cycle
      dsimp only
      rw [show (fetchNext s).1 = Opcode.ADD_AB from h0]
      rfl
    refine ⟨_, hc, ?_, ?_⟩
    · simp only [execADD_AB, getArgsAB, addWithCarry, getRegister,
        fetchNext_fst, getMemory_fetchNext, pc_fetchNext, registers_fetchNext, h1,
        registers_setRegister, apply_ite]
      simp only [ha, if_false, if_true, ite_self, eq_self_iff_true, jsByte_natCast, and_ff]
      omega
    · simp only [execADD_AB, getArgsAB, addWithCarry, getRegister,
        fetchNext_fst, getMemory_fetchNext, pc_fetchNext, registers_fetchNext, h1,
        carry_setRegister]
      split <;> dsimp only <;> split <;> omega
  · intro s ab k h0 h1 h2 ha
    have hc : cycle s = .ok (execADD_ABK (fetchNext s).2) := by
      unfold cycle
      dsimp only
      rw [show (fetchNext s).1 = Opcode.ADD_ABK from h0]
      rfl
    refine ⟨_, hc, ?_, ?_⟩
    · simp only [execADD_ABK, getArgsABK, getArgsAB, getArgsK, addWithCarry, getRegister,
        fetchNext_fst, getMemory_fetchNext, pc_fetchNext, registers_fetchNext, h1, h2,
        registers_setRegister, apply_ite]
      simp only [ha, if_false, if_true, ite_self, eq_self_iff_true, jsByte_natCast, and_ff]
      omega
    · simp only [execADD_ABK, getArgsABK, getArgsAB, getArgsK, addWithCarry, getRegister,
        fetchNext_fst, getMemory_fetchNext, pc_fetchNext, registers_fetchNext, h1, h2,
        carry_setRegister]
      split <;> dsimp only <;> split <;> omega
  · intro s ab cb h0 h1 h2 ha
    have hc : cycle s = .ok (execADD_ABC (fetchNext s).2) := by
      unfold cycle
      dsimp only
      rw [show (fetchNext s).1 = Opcode.ADD_ABC from h0]
      rfl
    refine ⟨_, hc, ?_, ?_⟩
    · simp only [execADD_ABC, getArgsABC, getArgsAB, getArgsA, addWithCarry, getRegister,
        fetchNext_fst, getMemory_fetchNext, pc_fetchNext, registers_fetchNext, h1, h2,
        registers_setRegister, apply_ite]
      simp only [ha, if_false, if_true, ite_self, eq_self_iff_true, jsByte_natCast, and_ff]
      omega
    · simp only [execADD_ABC, getArgsABC, getArgsAB, getArgsA, addWithCarry, getRegister,
        fetchNext_fst, getMemory_fetchNext, pc_fetchNext, registers_fetchNext, h1, h2,
        carry_setRegister]
      split <;> dsimp only <;> split <;> omega

open FrameVM in
/-- Witness for C8 at four concrete states, one per `add` variant. -/
theorem frame_c8_witness :
    (∃ s', cycle c8akVM = .ok s' ∧
      s'.registers (0x01 &&& 0xf) = (getRegister c8akVM (0x01 &&& 0xf) + 0xff) % 256 ∧
      s'.flags.carry =
        (if 255 < getRegister c8akVM (0x01 &&& 0xf) + 0xff then 1 else 0)) ∧
    (∃ s', cycle c8abVM = .ok s' ∧
      s'.registers (0x21 &&& 0xf) =
        (getRegister c8abVM (0x21 &&& 0xf) + getRegister c8abVM ((0x21 >>> 4) &&& 0xf)) % 256 ∧
      s'.flags.carry =
        (if 255 < getRegister c8abVM (0x21 &&& 0xf) + getRegister c8abVM ((0x21 >>> 4) &&& 0xf)
         then 1 else 0)) ∧
    (∃ s', cycle c8abkVM = .ok s' ∧
      s'.registers (0x13 &&& 0xf) = (getRegister c8abkVM ((0x13 >>> 4) &&& 0xf) + 100) % 256 ∧
      s'.flags.carry =
        (if 255 < getRegister c8abkVM ((0x13 >>> 4) &&& 0xf) + 100 then 1 else 0)) ∧
    (∃ s', cycle c8abcVM = .ok s' ∧
      s'.registers (0x13 &&& 0xf) =
        (getRegister c8abcVM ((0x13 >>> 4) &&& 0xf) + getRegister c8abcVM (0x02 &&& 0xf)) % 256 ∧
      s'.flags.carry =
        (if 255 < getRegister c8abcVM ((0x13 >>> 4) &&& 0xf) + getRegister c8abcVM (0x02 &&& 0xf)
         then 1 else 0)) :=
  ⟨frame_c8_add_carry_and_mod.1 c8akVM 0x01 0xff rfl rfl rfl (by decide),
   frame_c8_add_carry_and_mod.2.1 c8abVM 0x21 rfl rfl (by decide),
   frame_c8_add_carry_and_mod.2.2.1 c8abkVM 0x13 100 rfl rfl rfl (by decide),
   frame_c8_add_carry_and_mod.2.2.2 c8abcVM 0x13 0x02 rfl rfl rfl (by decide)⟩

open FrameVM in
/-- C2: when a 960-cycle boundary is reached with Interrupt-enable clear,
no interrupt is delivered there — and none is ever delivered afterwards,
even though the very next instruction re-enables the flag and it stays
set: the `runCallback` loop checks `cyclesSinceInterrupt === 960` with
strict equality and resets the counter only when it delivers, so after a
missed boundary the counter counts past 960 forever and the fire
condition is never true again. -/
theorem frame_c2_missed_boundary_disables_interrupts :
    interruptFires c2VM = false ∧
    c2VM.cyclesSinceInterrupt = CYCLES_PER_INTERRUPT ∧
    c2VM.flags.interrupt = 0 ∧
    ∀ n : Nat, ∃ sn, runCallbackIter (n + 1) c2VM = .ok sn ∧
      sn.flags.interrupt = 1 ∧
      sn.cyclesSinceInterrupt = CYCLES_PER_INTERRUPT + (n + 1) ∧
      interruptFires sn = false := by
  refine ⟨rfl, rfl, rfl, ?_⟩
  intro n
  obtain ⟨sn, hit, hinv, hcsi⟩ := c2_iter n c2s1 c2_first_inv
  refine ⟨sn, ?_, hinv.2.2.1, ?_, ?_⟩
  · show (runCallbackBody c2VM).bind (runCallbackIter n) = .ok sn
    rw [c2_first_step]
    exact hit
  · have h1 : c2s1.cyclesSinceInterrupt = CYCLES_PER_INTERRUPT + 1 := rfl
    omega
  · have hgt := hinv.2.2.2
    simp only [interruptFires, Bool.and_eq_false_iff]
    left
    simp only [beq_eq_false_iff_ne, ne_eq]
    omega

open FrameVM in
/-- C9: register 0 is hard-wired to zero.  A `setRegister` targeting
register 0 stores 0 and leaves the Zero flag 1 and the Negative flag 0;
`reset` establishes register 0 = 0; and both a single CPU `cycle` and a
full scheduler-loop iteration (which may render and enter an interrupt)
preserve register 0 = 0, so it holds in every reachable state. -/
theorem frame_c9_register_zero_invariant :
    (∀ (s : VM) (v : Int),
      (setRegister s 0 v).registers 0 = 0 ∧
      (setRegister s 0 v).flags.zero = 1 ∧
      (setRegister s 0 v).flags.negative = 0) ∧
    (∀ s : VM, (reset s).registers 0 = 0) ∧
    (∀ (s s' : VM), s.registers 0 = 0 → cycle s = .ok s' → s'.registers 0 = 0) ∧
    (∀ (s s' : VM), s.registers 0 = 0 → runCallbackBody s = .ok s' →
      s'.registers 0 = 0) := by
  refine ⟨?_, ?_, fun s s' h0 hc => cycle_registers_zero s s' h0 hc, ?_⟩
  · intro s v
    unfold setRegister updateZeroAndNegative
    simp
  · intro s
    unfold reset
    dsimp only
    rw [show List.range REG_COUNT =
      [0, 1, 2, 3, 4, 5, 6, 7, 8, 9, 10, 11, 12, 13, 14, 15] from rfl]
    rw [List.foldl_cons]
    apply registers_zero_setSP
    rw [registers_setPC]
    exact fold_setRegister_reg0 _ _ (registers_setRegister_self_zero _ 0)
  · intro s s' h0 hb
    unfold runCallbackBody at hb
    dsimp only at hb
    set base := if interruptFires s then
        { triggerInterrupt (draw s) with cyclesSinceInterrupt := 0 }
      else s with hbase
    have hbase0 : base.registers 0 = 0 := by
      rw [hbase]
      split
      · show (triggerInterrupt (draw s)).registers 0 = 0
        apply registers_zero_triggerInterrupt
        rw [registers_draw]
        exact h0
      · exact h0
    revert hb
    cases hcy : cycle base with
    | error e => intro hb; exact Except.noConfusion hb
    | ok t =>
      intro hb
      cases hb
      show t.registers 0 = 0
      exact cycle_registers_zero base t hbase0 hcy

/-- Witness for C9: the register-0 write, `reset`, one cycle (on `c10VM`)
and one scheduler iteration (on `c2VM`), all at concrete states. -/
theorem frame_c9_witness :
    ((FrameVM.setRegister FrameVM.c1VM 0 0x42).registers 0 = 0 ∧
      (FrameVM.setRegister FrameVM.c1VM 0 0x42).flags.zero = 1 ∧
      (FrameVM.setRegister FrameVM.c1VM 0 0x42).flags.negative = 0) ∧
    (FrameVM.reset FrameVM.c1VM).registers 0 = 0 ∧
    ({ FrameVM.c10VM with pc := 2, clock := 2 } : FrameVM.VM).registers 0 = 0 ∧
    FrameVM.c2s1.registers 0 = 0 :=
  ⟨frame_c9_register_zero_invariant.1 FrameVM.c1VM 0x42,
   frame_c9_register_zero_invariant.2.1 FrameVM.c1VM,
   frame_c9_register_zero_invariant.2.2.1 FrameVM.c10VM
     { FrameVM.c10VM with pc := 2, clock := 2 } rfl rfl,
   frame_c9_register_zero_invariant.2.2.2 FrameVM.c2VM FrameVM.c2s1 rfl rfl⟩

/-- C5 amended: when a label is defined, `#fixUnresolvedLabel` patches
every recorded forward-reference site whose byte is an opcode of an
address-carrying mode: the label's address bytes (low then high) are
written immediately after the opcode for the modes that emit the address
first (`P`, `PA`, `PK`, `APB`, `PAB`, `APK`, `PAK`), and one byte later
for `AP`.  Sites are taken pairwise non-overlapping, as distinct
instruction offsets are. -/
theorem frame_c5_fix_unresolved_label_patches_instruction_sites
    (s : Assembler.Asm) (label : String) (addr : Nat) (sites : List Nat)
    (i m : Nat) (hin : i ∈ sites) (hnd : sites.Nodup)
    (hsep : ∀ j ∈ sites, j ≠ i → j + 3 < i ∨ i + 3 < j)
    (hmem : i + 3 < FrameVM.MEMORY_SIZE)
    (hm : Assembler.modeMap (s.program i) = some m) :
    ((m = Assembler.Mode.P ∨ m = Assembler.Mode.PA ∨ m = Assembler.Mode.PK ∨
        m = Assembler.Mode.APB ∨ m = Assembler.Mode.PAB ∨
        m = Assembler.Mode.APK ∨ m = Assembler.Mode.PAK) →
      (Assembler.fixUnresolvedLabel s label addr sites).program (i + 1) = addr &&& 0xff ∧
      (Assembler.fixUnresolvedLabel s label addr sites).program (i + 2) =
        (addr >>> 8) &&& 0xff) ∧
    (m = Assembler.Mode.AP →
      (Assembler.fixUnresolvedLabel s label addr sites).program (i + 2) = addr &&& 0xff ∧
      (Assembler.fixUnresolvedLabel s label addr sites).program (i + 3) =
        (addr >>> 8) &&& 0xff) := by
  have hfix : (Assembler.fixUnresolvedLabel s label addr sites).program =
      Assembler.fixLoop (addr &&& 0xff) ((addr >>> 8) &&& 0xff) sites s.program := rfl
  have hcol : ∀ x : Nat, (x &&& 0xff) &&& 0xff = x &&& 0xff := fun x => by
    rw [Nat.and_assoc]
    norm_num
  have h := Assembler.fixLoop_patches (addr &&& 0xff) ((addr >>> 8) &&& 0xff)
    sites s.program i m hin hnd hsep hmem hm
  rw [hfix]
  refine ⟨fun hP => ?_, fun hAP => ?_⟩
  · obtain ⟨h1, h2⟩ := h.1 hP
    exact ⟨h1.trans (hcol addr), h2.trans (hcol _)⟩
  · obtain ⟨h1, h2⟩ := h.2 hAP
    exact ⟨h1.trans (hcol addr), h2.trans (hcol _)⟩

/-- Witness for the amended C5: patching the single site 10, whose byte
is the `JMP_P` opcode, with address `0x0204` writes `04` at offset 11 and
`02` at offset 12. -/
theorem frame_c5_fix_witness :
    (Assembler.fixUnresolvedLabel Assembler.c5wAsm "end" 0x0204 [10]).program (10 + 1) =
      0x0204 &&& 0xff ∧
    (Assembler.fixUnresolvedLabel Assembler.c5wAsm "end" 0x0204 [10]).program (10 + 2) =
      (0x0204 >>> 8) &&& 0xff :=
  (frame_c5_fix_unresolved_label_patches_instruction_sites Assembler.c5wAsm "end"
      0x0204 [10] 10 Assembler.Mode.P (by decide) (by decide) (by decide) (by decide)
      rfl).1 (Or.inl rfl)
